import Mathlib

/-!
# micros_rtt: publish/subscribe transport

A shallow embedding of the pipeline code of `micros_rtt`
(`subscription.h`, `oro/connection_factory.hpp`, `oro/mqueue/MQChannelElement.hpp`,
`node_handle.hpp`) together with theorems about dispatch, the message-queue
channel element, and pipeline construction.

Conventions of the embedding:
* a `shared_ptr` to a channel element is an `Option ChanPtr`, a `ChanPtr`
  being an index into the heap of channel elements of the process;
* a `ConnectionBasePtr` is an index into the table of connections
  (publications and subscriptions) of the process;
* calls whose effect is only observable from outside (the user callback,
  the functions declared but not defined in the headers) are recorded in
  event lists;
* a call that the source does not enclose in a handler passes an exception
  on: a `read` and a `call()` end by a return or by a throw.
-/

namespace micros_rtt

/-- Index of a channel element in the heap of the process. -/
abbrev ChanPtr := Nat

/-- Index of a publication or subscription in the connection table. -/
abbrev ConnectionBasePtr := Nat

/-- The tri-state result of a read (the enumeration is declared outside the
sources; its order `NoData < OldData < NewData` is that of the spec's
`{NoData, OldData, NewData}`). -/
inductive FlowStatus
  | NoData
  | OldData
  | NewData
deriving DecidableEq, Repr

/-- Numeric value of the enumerator, used by the comparison `tresult > result`. -/
def FlowStatus.toNat : FlowStatus → Nat
  | .NoData => 0
  | .OldData => 1
  | .NewData => 2

/-! ## Exceptions and outcomes -/

/-- Index standing for a callback function (`void(*fp)(M)`, the target of the
`boost::function<void(M)>` of a subscription). -/
abbrev CallbackPtr := Nat

/-- The exceptions that leave the code through a call without a handler:
the decode error of the codec, and `boost::bad_function_call`, thrown when an
empty `boost::function` is invoked. -/
inductive Thrown
  | decode_error
  | bad_function_call
deriving DecidableEq, Repr

/-- Outcome of the call `deserializeMessage(&m, sample)`, which writes into the
out-parameter in place: it returns, leaving `sample` decoded, or it throws the
decode error, `sample` being what the out-parameter holds at that moment. -/
inductive DecodeOutcome (M : Type)
  | returned (sample : M)
  | threw (sample : M)
deriving DecidableEq, Repr

/-- Outcome of a `read(sample, copy_old_data)`: it returns a `FlowStatus`, or it
exits by an exception; either way `sample` is the content of the out-parameter
and `state` the state of what was read from. -/
inductive ReadResult (M σ : Type)
  | returned (status : FlowStatus) (sample : M) (state : σ)
  | threw (e : Thrown) (sample : M) (state : σ)

/-- The `FlowStatus` a read returned, `none` when it exited by an exception. -/
def ReadResult.status {M σ : Type} : ReadResult M σ → Option FlowStatus
  | ReadResult.returned status _ _ => some status
  | ReadResult.threw _ _ _ => none

/-- The content of the out-parameter after a read. -/
def ReadResult.sample {M σ : Type} : ReadResult M σ → M
  | ReadResult.returned _ sample _ => sample
  | ReadResult.threw _ sample _ => sample

/-- The state after a read. -/
def ReadResult.state {M σ : Type} : ReadResult M σ → σ
  | ReadResult.returned _ _ state => state
  | ReadResult.threw _ _ state => state

/-! ## `Subscription::call` (subscription.h, lines 49-69) -/

/-- What one `call()` does that is visible outside the subscription. -/
inductive CallEvent (M : Type)
  | read (input : ChanPtr) (copy_old_data : Bool)
  | callback (fp : CallbackPtr) (sample : M)
deriving DecidableEq, Repr

/-- How one `call()` ends: it returns its flag, or it exits by an exception. -/
inductive CallOutcome
  | returned (ret : Bool)
  | threw (e : Thrown)
deriving DecidableEq, Repr

/-- Result of one `call()`: how it ended, the reads and callback invocations it
made in order, and the state of the channel elements afterwards. -/
structure CallResult (M σ : Type) where
  outcome : CallOutcome
  events : List (CallEvent M)
  state : σ

/-- Embedding of `Subscription<M>::call()`.

`read` is the virtual `ChannelElement<M>::read` of the process; `callback` is
the member `boost::function<void(M)> callback`, `none` when it is empty (the
constructor `Subscription(topic)` leaves it so); `input` is
`this->getChannelElement()`; `sample` and `result` are what the locals
`M sample` and `FlowStatus result` hold after their declarations.  Neither the
read nor the invocation of the callback is inside a handler. -/
def Subscription.call {M σ : Type}
    (read : ChanPtr → σ → M → Bool → ReadResult M σ)
    (callback : Option CallbackPtr) (input : Option ChanPtr) (sample : M)
    (result : FlowStatus) (st : σ) : CallResult M σ :=
  let trace : List (CallEvent M) := []
  match input with
  | some inp =>
    let trace := trace ++ [CallEvent.read inp false]
    match read inp st sample false with
    | ReadResult.threw e _ st => ⟨CallOutcome.threw e, trace, st⟩
    | ReadResult.returned tresult sample st =>
      if tresult = FlowStatus.NewData then
        match callback with
        | some fp =>
          let trace := trace ++ [CallEvent.callback fp sample]
          ⟨CallOutcome.returned true, trace, st⟩
        | none => ⟨CallOutcome.threw Thrown.bad_function_call, trace, st⟩
      else
        let result := if tresult.toNat > result.toNat then tresult else result
        let _unused := result
        ⟨CallOutcome.returned false, trace, st⟩
  | none => ⟨CallOutcome.returned false, trace, st⟩

/-! ## `MQChannelElement` (oro/mqueue/MQChannelElement.hpp) -/

/-- The bytes of a `ros::SerializedMessage`. -/
abbrev SerializedMessage := List Nat

/-- The codec of the sample type `M` (`ros::serialization`, supplied from
outside the repository).  `deserializeMessage m sample` is the outcome of the
call `deserializeMessage(&m, sample)` on the out-parameter `sample`. -/
structure Codec (M : Type) where
  serializeMessage : M → SerializedMessage
  deserializeMessage : SerializedMessage → M → DecodeOutcome M

/-- A byte string is malformed for a codec when it is the serialization of no sample. -/
def Codec.Malformed {M : Type} (c : Codec M) (m : SerializedMessage) : Prop :=
  ∀ x : M, c.serializeMessage x ≠ m

/-- The codec contract of the spec: "fails with a decode error on malformed
input; round-trip must be exact for values actually produced by serialize". -/
def Codec.Lawful {M : Type} (c : Codec M) : Prop :=
  (∀ (x s : M), c.deserializeMessage (c.serializeMessage x) s = DecodeOutcome.returned x) ∧
  (∀ m : SerializedMessage, c.Malformed m →
    ∀ s : M, ∃ s' : M, c.deserializeMessage m s = DecodeOutcome.threw s')

/-- Modelled from the spec: the base class `MQSendRecv` (MQSendRecv.hpp is not
among the sources).  The spec's queue primitive is a bounded FIFO byte channel:
"capacity bounds the number of enqueued-but-undelivered messages; over-capacity
enqueue fails (policy: drop, caller-visible failure, no automatic retry)".
`queue` holds the undelivered messages, oldest first; `sent` records every
enqueue attempt made through `mqWrite`, in order. -/
structure MQSendRecv where
  capacity : Nat
  queue : List SerializedMessage
  sent : List SerializedMessage
deriving DecidableEq, Repr

/-- Modelled from the spec: `MQSendRecv::mqWrite`, `send(handle, bytes) -> ok | full`:
one enqueue attempt, which fails without waiting when the queue is at capacity. -/
def MQSendRecv.mqWrite (q : MQSendRecv) (m : SerializedMessage) : Bool × MQSendRecv :=
  if q.queue.length < q.capacity then
    (true, { q with queue := q.queue ++ [m], sent := q.sent ++ [m] })
  else
    (false, { q with sent := q.sent ++ [m] })

/-- Modelled from the spec: `MQSendRecv::mqRead`, the receive of the queue
primitive as `read` uses it: `some m` when the oldest message `m` was dequeued
(the call returned true and filled `m`), `none` when nothing was dequeued. -/
def MQSendRecv.mqRead (q : MQSendRecv) : Option SerializedMessage × MQSendRecv :=
  match q.queue with
  | [] => (none, q)
  | m :: rest => (some m, { q with queue := rest })

/-- Embedding of `MQChannelElement<M>::read(sample, copy_old_data)`.  The call of
`deserializeMessage` is not inside a handler: its decode error leaves `read`,
after the message was dequeued. -/
def MQChannelElement.read {M : Type} (c : Codec M) (q : MQSendRecv) (sample : M)
    (_copy_old_data : Bool) : ReadResult M MQSendRecv :=
  match q.mqRead with
  | (some m, q) =>
    match c.deserializeMessage m sample with
    | DecodeOutcome.returned sample => ReadResult.returned FlowStatus.NewData sample q
    | DecodeOutcome.threw sample => ReadResult.threw Thrown.decode_error sample q
  | (none, q) => ReadResult.returned FlowStatus.NoData sample q

/-- Embedding of `MQChannelElement<M>::write(sample)`. -/
def MQChannelElement.write {M : Type} (c : Codec M) (q : MQSendRecv) (sample : M) :
    Bool × MQSendRecv :=
  let m := c.serializeMessage sample
  q.mqWrite m

/-- A codec for `Nat` samples: a sample is one word; any other buffer is a
decode error that leaves the out-parameter as it was. -/
def natCodec : Codec Nat where
  serializeMessage := fun x => [x]
  deserializeMessage := fun m sample =>
    match m with
    | [b] => DecodeOutcome.returned b
    | _ => DecodeOutcome.threw sample

/-- A codec for samples of two fields, decoded in place field by field in the
manner of the ROS serializer: the first word is written to the first field,
the second word to the second field; a buffer that ends early or has words
left over is a decode error, raised after the fields that could be read were
written. -/
def pairCodec : Codec (Nat × Nat) where
  serializeMessage := fun x => [x.1, x.2]
  deserializeMessage := fun m sample =>
    match m with
    | [] => DecodeOutcome.threw sample
    | [a] => DecodeOutcome.threw (a, sample.2)
    | [a, b] => DecodeOutcome.returned (a, b)
    | a :: b :: _ :: _ => DecodeOutcome.threw (a, b)

/-! ## Channel elements of one process -/

/-- Modelled from the spec: `DataObjectLockFree<M>` (data_lockfree.hpp is not
among the sources), the spec's Sample Cell: "holds zero-or-one current sample
plus a monotonically increasing generation counter".  Generation `0` is the
cell that was never written; the constructor argument seeds `value`. -/
structure DataObjectLockFree (M : Type) where
  value : M
  generation : Nat
deriving DecidableEq, Repr

/-- The closed set of channel element classes the factory instantiates. -/
inductive ElementKind (M : Type)
  | ConnInputEndpoint (publication : ConnectionBasePtr)
  | ConnOutputEndpoint (subscription : ConnectionBasePtr)
  | ChannelDataElement (data_object : DataObjectLockFree M) (last_seen : Nat)
  | MQChannelElement (connection : ConnectionBasePtr) (is_sender : Bool) (mq : MQSendRecv)
deriving DecidableEq, Repr

/-- State common to every channel element: its links, and the number of
`setOutput` calls that were made on it. -/
structure ChannelElementBase (M : Type) where
  kind : ElementKind M
  output : Option ChanPtr
  input : Option ChanPtr
  outputSet : Nat
deriving DecidableEq, Repr

/-- State of a `ConnectionBase` (a `Publication<M>` or a `Subscription<M>`):
its topic, the channel elements attached with `addConnection` (read back by
`getChannelElement`) and `addMQConnection`, and, for a subscription, the member
`callback`: `none` is the empty `boost::function`, which is what a publication
has too. -/
structure ConnectionBase where
  topic : String
  channel : Option ChanPtr
  mq_channel : Option ChanPtr
  callback : Option CallbackPtr
deriving DecidableEq, Repr

/-- Calls made by the factory and the node handle, in the order they happen. -/
inductive FactoryEvent
  | setOutput (element output : ChanPtr)
  | createStream (connection : ConnectionBasePtr) (is_sender : Bool)
  | createAndCheckStream (connection : ConnectionBasePtr) (chan : ChanPtr) (is_sender : Bool)
  | createConnection (publication subscription : ConnectionBasePtr)
  | createAndCheckConnection (publication subscription : ConnectionBasePtr)
      (channel_input : ChanPtr)
deriving DecidableEq, Repr

/-- The state of one process: the heap of channel elements, the table of
connections, the two lists of the `TopicManager` singleton, and the log.
Elements are never removed from the heap: an element that no link and no
connection refers to stands for one whose last `shared_ptr` was released. -/
structure World (M : Type) where
  heap : List (ChannelElementBase M)
  connections : List ConnectionBase
  advertised : List (String × ConnectionBasePtr)
  subscribed : List (String × ConnectionBasePtr)
  log : List FactoryEvent

/-- The collaborators outside the repository whose answers the code branches on.
`setupStream connection is_sender` is the queue the `MQChannelElement`
constructor opens, `none` when `setupStream` throws; `checkStream` is the
verdict of `createAndCheckStream`; `rosAdvertise` and `rosSubscribe` tell
whether the ROS node handle returned a valid publisher or subscriber. -/
structure Env where
  setupStream : ConnectionBasePtr → Bool → Option MQSendRecv
  checkStream : ConnectionBasePtr → Bool → Bool
  rosAdvertise : String → Nat → Bool → Bool
  rosSubscribe : String → Nat → Bool

/-- Apply `f` to the element at index `i`; out of range leaves the list as it is. -/
def modifyAt {α : Type} (f : α → α) : List α → Nat → List α
  | [], _ => []
  | a :: l, 0 => f a :: l
  | a :: l, i + 1 => a :: modifyAt f l i

/-- Allocation with `new`: the element is placed at the end of the heap. -/
def World.alloc {M : Type} (w : World M) (kind : ElementKind M) : ChanPtr × World M :=
  (w.heap.length, { w with heap := w.heap ++ [⟨kind, none, none, 0⟩] })

/-- Append one event to the log. -/
def World.record {M : Type} (w : World M) (e : FactoryEvent) : World M :=
  { w with log := w.log ++ [e] }

/-- Modelled from the spec: `ChannelElementBase::setOutput` (channel_element.hpp
is not among the sources): "link" the element to its downstream `output`; the
output element learns its input, from which the spec's endpoint-output adapter
"exposes reads pulled from its input". -/
def World.setOutput {M : Type} (w : World M) (element output : ChanPtr) : World M :=
  let heap := modifyAt
    (fun e => { e with output := some output, outputSet := e.outputSet + 1 }) w.heap element
  let heap := modifyAt (fun e => { e with input := some element }) heap output
  { w with heap := heap, log := w.log ++ [FactoryEvent.setOutput element output] }

/-- Modelled from the spec: `ChannelElementBase::getOutputEndPoint`
(channel_element.hpp is not among the sources): the last element reached by
following the output links. -/
def getOutputEndPoint {M : Type} (heap : List (ChannelElementBase M)) : Nat → ChanPtr → ChanPtr
  | 0, p => p
  | fuel + 1, p =>
    match heap[p]? with
    | some e =>
      match e.output with
      | some o => getOutputEndPoint heap fuel o
      | none => p
    | none => p

/-- The elements met from `p` along the output links, `p` first. -/
def chainFrom {M : Type} (heap : List (ChannelElementBase M)) : Nat → ChanPtr → List ChanPtr
  | 0, _ => []
  | fuel + 1, p =>
    match heap[p]? with
    | some e =>
      match e.output with
      | some o => p :: chainFrom heap fuel o
      | none => [p]
    | none => [p]

/-- Modelled from the spec: `ConnectionBase::getChannelElement` (connection_base.hpp is
not among the sources): the chain node the endpoint "owns", as `addConnection` stored it. -/
def World.getChannelElement {M : Type} (w : World M) (c : ConnectionBasePtr) : Option ChanPtr :=
  match w.connections[c]? with
  | some cb => cb.channel
  | none => none

/-- Modelled from the spec: `ConnectionBase::getMQChannelElement`: the node of the queue
chain the endpoint owns, as `addMQConnection` stored it. -/
def World.getMQChannelElement {M : Type} (w : World M) (c : ConnectionBasePtr) :
    Option ChanPtr :=
  match w.connections[c]? with
  | some cb => cb.mq_channel
  | none => none

/-- The member `callback` of the subscription `c`. -/
def World.getCallback {M : Type} (w : World M) (c : ConnectionBasePtr) : Option CallbackPtr :=
  match w.connections[c]? with
  | some cb => cb.callback
  | none => none

/-- Whether an element is a store node. -/
def ElementKind.isChannelDataElement {M : Type} : ElementKind M → Bool
  | ElementKind.ChannelDataElement _ _ => true
  | _ => false

/-- The number of store nodes in a heap. -/
def countDataElements {M : Type} (heap : List (ChannelElementBase M)) : Nat :=
  (heap.filter (fun e => e.kind.isChannelDataElement)).length

/-- Modelled from the spec: `ConnectionBase::addConnection` (called by
`Subscription::channelReady`): the endpoint takes the node of its local chain. -/
def World.addConnection {M : Type} (w : World M) (c : ConnectionBasePtr) (chan : ChanPtr) :
    World M :=
  { w with connections := modifyAt (fun cb => { cb with channel := some chan }) w.connections c }

/-- Modelled from the spec: `ConnectionBase::addMQConnection` (called by
`Subscription::mqChannelReady`): the endpoint takes the node of its queue chain. -/
def World.addMQConnection {M : Type} (w : World M) (c : ConnectionBasePtr) (chan : ChanPtr) :
    World M :=
  { w with
    connections := modifyAt (fun cb => { cb with mq_channel := some chan }) w.connections c }

/-- Modelled from the spec: the virtual `ChannelElement<M>::read` of the
elements other than the queue adapter (channel_element.hpp,
channel_data_element.hpp, conn_output_endpoint.hpp are not among the sources).
The store node classifies by generation: "cell never written → NoData",
"counter unseen → NewData", "counter equal to last-seen → OldData", and a read
that allows stale data "re-returns the last value as OldData"; the endpoint
adapters pull from their input.  The queue adapter runs `MQChannelElement.read`
on its own queue handle, and the exception of that read passes through.
`fuel` bounds the number of links followed. -/
def ChannelElement.readAux {M : Type} (c : Codec M) :
    Nat → World M → ChanPtr → M → Bool → ReadResult M (World M)
  | 0, w, _, sample, _ => ReadResult.returned FlowStatus.NoData sample w
  | fuel + 1, w, p, sample, copy_old_data =>
    match w.heap[p]? with
    | none => ReadResult.returned FlowStatus.NoData sample w
    | some e =>
      match e.kind with
      | ElementKind.ChannelDataElement d last_seen =>
        if d.generation = 0 then ReadResult.returned FlowStatus.NoData sample w
        else if d.generation ≠ last_seen then
          ReadResult.returned FlowStatus.NewData d.value
            { w with heap := modifyAt (fun e =>
                { e with kind := ElementKind.ChannelDataElement d d.generation }) w.heap p }
        else
          ReadResult.returned FlowStatus.OldData (if copy_old_data then d.value else sample) w
      | ElementKind.MQChannelElement conn snd mq =>
        match MQChannelElement.read c mq sample copy_old_data with
        | ReadResult.returned status sample mq =>
          ReadResult.returned status sample
            { w with heap := modifyAt (fun e =>
                { e with kind := ElementKind.MQChannelElement conn snd mq }) w.heap p }
        | ReadResult.threw ex sample mq =>
          ReadResult.threw ex sample
            { w with heap := modifyAt (fun e =>
                { e with kind := ElementKind.MQChannelElement conn snd mq }) w.heap p }
      | _ =>
        match e.input with
        | some i => ChannelElement.readAux c fuel w i sample copy_old_data
        | none => ReadResult.returned FlowStatus.NoData sample w

/-- The virtual `read`, with one unit of fuel for every element of the heap. -/
def ChannelElement.read {M : Type} (c : Codec M) (p : ChanPtr) (w : World M) (sample : M)
    (copy_old_data : Bool) : ReadResult M (World M) :=
  ChannelElement.readAux c w.heap.length w p sample copy_old_data

/-- Modelled from the spec: the virtual `ChannelElement<M>::write` of the
elements other than the queue adapter: the store node "stores" (the write
"always succeeds", and publishes a new generation), the endpoint-input adapter
"forwards outgoing writes into its output".  The queue adapter runs
`MQChannelElement.write` on its own queue handle. -/
def ChannelElement.writeAux {M : Type} (c : Codec M) :
    Nat → World M → ChanPtr → M → Bool × World M
  | 0, w, _, _ => (false, w)
  | fuel + 1, w, p, sample =>
    match w.heap[p]? with
    | none => (false, w)
    | some e =>
      match e.kind with
      | ElementKind.ChannelDataElement d last_seen =>
        let stored : DataObjectLockFree M := ⟨sample, d.generation + 1⟩
        (true,
          { w with heap := modifyAt (fun e =>
              { e with kind := ElementKind.ChannelDataElement stored last_seen }) w.heap p })
      | ElementKind.MQChannelElement conn snd mq =>
        let r := MQChannelElement.write c mq sample
        (r.1,
          { w with heap := modifyAt (fun e =>
              { e with kind := ElementKind.MQChannelElement conn snd r.2 }) w.heap p })
      | _ =>
        match e.output with
        | some o => ChannelElement.writeAux c fuel w o sample
        | none => (false, w)

/-- The virtual `write`, with one unit of fuel for every element of the heap. -/
def ChannelElement.write {M : Type} (c : Codec M) (p : ChanPtr) (w : World M) (sample : M) :
    Bool × World M :=
  ChannelElement.writeAux c w.heap.length w p sample

/-- Modelled from the spec: `Publication<M>::publish` (publication.h is not
among the sources), the per-endpoint `write(sample)`: "a value enters at a
producer endpoint, is written into a store node and/or serialized into a queue
adapter", that is into the entry node of each chain the publication owns. -/
def Publication.publish {M : Type} (c : Codec M) (w : World M) (publication : ConnectionBasePtr)
    (sample : M) : World M :=
  let w := match w.getChannelElement publication with
    | some ch => (ChannelElement.write c ch w sample).2
    | none => w
  match w.getMQChannelElement publication with
  | some ch => (ChannelElement.write c ch w sample).2
  | none => w

/-! ## `ConnFactory` (oro/connection_factory.hpp) -/

/-- Embedding of `ConnFactory::buildDataStorage<M>(initial_value)`. -/
def ConnFactory.buildDataStorage {M : Type} (w : World M) (initial_value : M) :
    ChanPtr × World M :=
  let data_object : DataObjectLockFree M := ⟨initial_value, 0⟩
  w.alloc (ElementKind.ChannelDataElement data_object 0)

/-- Embedding of `ConnFactory::buildChannelInput<M>(publication, output_channel)`. -/
def ConnFactory.buildChannelInput {M : Type} (w : World M) (publication : ConnectionBasePtr)
    (output_channel : Option ChanPtr) : ChanPtr × World M :=
  let r := w.alloc (ElementKind.ConnInputEndpoint publication)
  let endpoint := r.1
  let w := r.2
  match output_channel with
  | some oc => (endpoint, w.setOutput endpoint oc)
  | none => (endpoint, w)

/-- Embedding of `ConnFactory::buildChannelOutput<M>(subscription)`. -/
def ConnFactory.buildChannelOutput {M : Type} (w : World M) (subscription : ConnectionBasePtr) :
    ChanPtr × World M :=
  w.alloc (ElementKind.ConnOutputEndpoint subscription)

/-- Embedding of `ConnFactory::buildBufferedChannelOutput<M>(subscription, initial_value)`. -/
def ConnFactory.buildBufferedChannelOutput {M : Type} (w : World M)
    (subscription : ConnectionBasePtr) (initial_value : M) : ChanPtr × World M :=
  let r := w.alloc (ElementKind.ConnOutputEndpoint subscription)
  let endpoint := r.1
  let r := ConnFactory.buildDataStorage r.2 initial_value
  let data_object := r.1
  let w := r.2.setOutput data_object endpoint
  (data_object, w)

/-- Modelled from the spec: `ConnFactory::createAndCheckConnection` (declared in
connection_factory.hpp, defined outside the sources).  An endpoint "owns the
entry node of its outgoing chain, or the terminal node of its incoming chain":
the publication receives `channel_input`, the subscription the end point of
the chain, and `build_local_connection` reports success. -/
def ConnFactory.createAndCheckConnection {M : Type} (w : World M)
    (publication subscription : ConnectionBasePtr) (channel_input : ChanPtr) : Bool × World M :=
  let w := w.record (FactoryEvent.createAndCheckConnection publication subscription channel_input)
  let w := w.addConnection publication channel_input
  let w := w.addConnection subscription (getOutputEndPoint w.heap w.heap.length channel_input)
  (true, w)

/-- Embedding of `ConnFactory::createConnection<M>(publication, subscription)`. -/
def ConnFactory.createConnection {M : Type} [Inhabited M] (w : World M)
    (publication subscription : ConnectionBasePtr) : Bool × World M :=
  let w := w.record (FactoryEvent.createConnection publication subscription)
  let r := ConnFactory.buildBufferedChannelOutput w subscription (default : M)
  let output_half : Option ChanPtr := some r.1
  let w := r.2
  match output_half with
  | none => (false, w)
  | some _ =>
    let r := ConnFactory.buildChannelInput w publication output_half
    let channel_input := r.1
    ConnFactory.createAndCheckConnection r.2 publication subscription channel_input

/-- The constructor `MQChannelElement<M>(connection, is_sender)`: it runs
`setupStream`, and an exception of `setupStream` leaves no element behind. -/
def MQChannelElement.new {M : Type} (env : Env) (w : World M) (connection : ConnectionBasePtr)
    (is_sender : Bool) : Except Unit (ChanPtr × World M) :=
  match env.setupStream connection is_sender with
  | some mq => Except.ok (w.alloc (ElementKind.MQChannelElement connection is_sender mq))
  | none => Except.error ()

/-- Embedding of `ConnFactory::createMqStream<M>(connection, is_sender)`: the `try` block
returns the new element, the `catch` handler falls through to the empty pointer. -/
def ConnFactory.createMqStream {M : Type} (env : Env) (w : World M)
    (connection : ConnectionBasePtr) (is_sender : Bool) : Option ChanPtr × World M :=
  match MQChannelElement.new env w connection is_sender with
  | Except.ok r => (some r.1, r.2)
  | Except.error _ => (none, w)

/-- Modelled from the spec: `ConnFactory::createAndCheckStream` (declared in
connection_factory.hpp, defined outside the sources).  `build_stream(endpoint,
is_sender) -> bool`: when the check passes the endpoint takes the chain, the
head of its send chain or the tail of its receive chain. -/
def ConnFactory.createAndCheckStream {M : Type} (env : Env) (w : World M)
    (connection : ConnectionBasePtr) (chan : ChanPtr) (is_sender : Bool) : Bool × World M :=
  let w := w.record (FactoryEvent.createAndCheckStream connection chan is_sender)
  if env.checkStream connection is_sender then
    if is_sender then (true, w.addMQConnection connection chan)
    else (true, w.addMQConnection connection (getOutputEndPoint w.heap w.heap.length chan))
  else (false, w)

/-- Embedding of `ConnFactory::createStream<M>(connection, is_sender)`. -/
def ConnFactory.createStream {M : Type} (env : Env) (w : World M)
    (connection : ConnectionBasePtr) (is_sender : Bool) : Bool × World M :=
  let w := w.record (FactoryEvent.createStream connection is_sender)
  if is_sender then
    let r := ConnFactory.buildChannelInput w connection none
    let chan := r.1
    let r := ConnFactory.createMqStream env r.2 connection true
    match r.1 with
    | none => (false, r.2)
    | some chan_stream =>
      let w := r.2.setOutput chan chan_stream
      ConnFactory.createAndCheckStream env w connection chan true
  else
    let r := ConnFactory.buildChannelOutput w connection
    let chan := r.1
    let r := ConnFactory.createMqStream env r.2 connection false
    match r.1 with
    | none => (false, r.2)
    | some chan_stream =>
      let w := r.2.setOutput (getOutputEndPoint r.2.heap r.2.heap.length chan_stream) chan
      ConnFactory.createAndCheckStream env w connection chan_stream false

/-! ## `NodeHandle` (node_handle.hpp) -/

/-- A non-empty `Publisher`: the ROS publisher together with the publication. -/
structure Publisher where
  connection : ConnectionBasePtr
deriving DecidableEq, Repr

/-- A non-empty `Subscriber`: the ROS subscriber together with the subscription. -/
structure Subscriber where
  connection : ConnectionBasePtr
deriving DecidableEq, Repr

/-- The constructors `new Publication<M>(topic)` and `new Subscription<M>(topic, fp)`:
a connection with nothing attached, placed at the end of the table.  `callback`
is the `boost::function` built from `fp`, empty when `fp` is null and for a
publication. -/
def World.newConnection {M : Type} (w : World M) (topic : String)
    (callback : Option CallbackPtr) : ConnectionBasePtr × World M :=
  (w.connections.length,
    { w with connections := w.connections ++ [⟨topic, none, none, callback⟩] })

/-- Modelled from the spec: `TopicManager::addPubConnection` (topic_manager.h is
not among the sources); the registry maps a "topic name → list of live endpoints". -/
def TopicManager.addPubConnection {M : Type} (w : World M) (topic : String)
    (c : ConnectionBasePtr) : World M :=
  { w with advertised := w.advertised ++ [(topic, c)] }

/-- Modelled from the spec: `TopicManager::addSubConnection`. -/
def TopicManager.addSubConnection {M : Type} (w : World M) (topic : String)
    (c : ConnectionBasePtr) : World M :=
  { w with subscribed := w.subscribed ++ [(topic, c)] }

/-- Modelled from the spec: `TopicManager::findPubConnection`,
`lookup_producer(topic) -> optional Endpoint`. -/
def TopicManager.findPubConnection {M : Type} (w : World M) (topic : String) :
    Option ConnectionBasePtr :=
  (w.advertised.find? (fun e => e.1 == topic)).map Prod.snd

/-- Modelled from the spec: `TopicManager::findSubConnection`,
`lookup_consumer(topic) -> optional Endpoint`. -/
def TopicManager.findSubConnection {M : Type} (w : World M) (topic : String) :
    Option ConnectionBasePtr :=
  (w.subscribed.find? (fun e => e.1 == topic)).map Prod.snd

/-- Embedding of `NodeHandle::advertise<M>(topic, queue_size, latch)`. -/
def NodeHandle.advertise {M : Type} [Inhabited M] (env : Env) (w : World M) (topic : String)
    (queue_size : Nat) (latch : Bool) : Option Publisher × World M :=
  let ros_pub := env.rosAdvertise topic queue_size latch
  if ros_pub then
    let r := w.newConnection topic none
    let pub_connection := r.1
    let w := TopicManager.addPubConnection r.2 topic pub_connection
    let w := (ConnFactory.createStream env w pub_connection true).2
    let local_sub := TopicManager.findSubConnection w topic
    let w := match local_sub with
      | some ls => (ConnFactory.createConnection w pub_connection ls).2
      | none => w
    (some ⟨pub_connection⟩, w)
  else
    (none, w)

/-- Embedding of `NodeHandle::subscribe<M>(topic, queue_size, fp, transport_hints)`. -/
def NodeHandle.subscribe {M : Type} [Inhabited M] (env : Env) (w : World M) (topic : String)
    (queue_size : Nat) (fp : Option CallbackPtr) : Option Subscriber × World M :=
  let ros_sub := env.rosSubscribe topic queue_size
  if ros_sub then
    let r := w.newConnection topic fp
    let sub_connection := r.1
    let w := TopicManager.addSubConnection r.2 topic sub_connection
    let w := (ConnFactory.createStream env w sub_connection false).2
    let local_pub := TopicManager.findPubConnection w topic
    let w := match local_pub with
      | some lp => (ConnFactory.createConnection w lp sub_connection).2
      | none => w
    (some ⟨sub_connection⟩, w)
  else
    (none, w)

/-- The events a call appended to the log: those after the first `n`. -/
def eventsSince {M : Type} (w : World M) (n : Nat) : List FactoryEvent :=
  w.log.drop n

/-- Whether an event is a call of `ConnFactory::createConnection`. -/
def FactoryEvent.isCreateConnection : FactoryEvent → Bool
  | FactoryEvent.createConnection _ _ => true
  | _ => false

/-- Whether an event is a call of `ConnFactory::createAndCheckStream`. -/
def FactoryEvent.isCreateAndCheckStream : FactoryEvent → Bool
  | FactoryEvent.createAndCheckStream _ _ _ => true
  | _ => false

/-! ## Theorems: dispatch -/

/-- C1 (as stated, refuted): a subscription whose callback is empty, as the
constructor `Subscription(topic)` leaves it, sits at the end of a local
pipeline into which `42` was published.  The read of its terminal element
returns `NewData`, and `call()` then exits with `bad_function_call`: it
returns no flag and invokes no callback. -/
theorem Subscription_call_empty_callback_throws :
    (Publication.publish natCodec (ConnFactory.createConnection
        (⟨[], [⟨"chatter", none, none, none⟩, ⟨"chatter", none, none, none⟩],
          [("chatter", 0)], [("chatter", 1)], []⟩ : World Nat) 0 1).2 0 42).getCallback 1
      = none ∧
    (ChannelElement.read natCodec 0
        (Publication.publish natCodec (ConnFactory.createConnection
          (⟨[], [⟨"chatter", none, none, none⟩, ⟨"chatter", none, none, none⟩],
            [("chatter", 0)], [("chatter", 1)], []⟩ : World Nat) 0 1).2 0 42)
        0 false).status = some FlowStatus.NewData ∧
    (Subscription.call (ChannelElement.read natCodec) none (some 0) 0 FlowStatus.NoData
        (Publication.publish natCodec (ConnFactory.createConnection
          (⟨[], [⟨"chatter", none, none, none⟩, ⟨"chatter", none, none, none⟩],
            [("chatter", 0)], [("chatter", 1)], []⟩ : World Nat) 0 1).2 0 42)).outcome
      = CallOutcome.threw Thrown.bad_function_call ∧
    (Subscription.call (ChannelElement.read natCodec) none (some 0) 0 FlowStatus.NoData
        (Publication.publish natCodec (ConnFactory.createConnection
          (⟨[], [⟨"chatter", none, none, none⟩, ⟨"chatter", none, none, none⟩],
            [("chatter", 0)], [("chatter", 1)], []⟩ : World Nat) 0 1).2 0 42)).events
      = [CallEvent.read 0 false] :=
  ⟨rfl, rfl, rfl, rfl⟩

/-- C1 (amended): one `call()` on a subscription with a terminal node makes
exactly one read on it, with `copy_old_data = false`.  When that read returns
`NewData` and the callback is not empty, the callback is invoked exactly
once, after the read, with the sample the read produced, and `call()` returns
true; when the read returns `NewData` and the callback is empty, `call()`
exits with `bad_function_call` and nothing is invoked; when the read returns
`OldData` or `NoData`, or the subscription has no terminal node, the callback
is not invoked and `call()` returns false; an exception of the read leaves
`call()` as it is.  What the locals `sample` and `result` hold at their
declaration has no influence beyond the sample handed to the read. -/
theorem Subscription_call_dispatch {M σ : Type}
    (read : ChanPtr → σ → M → Bool → ReadResult M σ)
    (callback : Option CallbackPtr) (input : Option ChanPtr) (sample : M)
    (result : FlowStatus) (st : σ) :
    Subscription.call read callback input sample result st =
      match input with
      | none => ⟨CallOutcome.returned false, [], st⟩
      | some inp =>
        match read inp st sample false with
        | ReadResult.returned status s st' =>
          if status = FlowStatus.NewData then
            match callback with
            | some fp =>
              ⟨CallOutcome.returned true,
                [CallEvent.read inp false, CallEvent.callback fp s], st'⟩
            | none =>
              ⟨CallOutcome.threw Thrown.bad_function_call, [CallEvent.read inp false], st'⟩
          else ⟨CallOutcome.returned false, [CallEvent.read inp false], st'⟩
        | ReadResult.threw e _ st' => ⟨CallOutcome.threw e, [CallEvent.read inp false], st'⟩ := by
  cases input with
  | none => rfl
  | some inp =>
    simp only [Subscription.call]
    cases read inp st sample false with
    | threw e s st' => rfl
    | returned status s st' =>
      dsimp only
      split
      · cases callback <;> rfl
      · rfl

/-! ## Theorems: the message-queue channel element -/

/-- Reading a queue whose oldest message is `m`, which the codec decodes. -/
theorem MQChannelElement.read_cons {M : Type} (c : Codec M) (q : MQSendRecv)
    (m : SerializedMessage) (rest : List SerializedMessage) (sample decoded : M) (cod : Bool)
    (hq : q.queue = m :: rest)
    (hd : c.deserializeMessage m sample = DecodeOutcome.returned decoded) :
    MQChannelElement.read c q sample cod
      = ReadResult.returned FlowStatus.NewData decoded { q with queue := rest } := by
  simp [MQChannelElement.read, MQSendRecv.mqRead, hq, hd]

/-- Reading a queue whose oldest message is `m`, on which the codec fails. -/
theorem MQChannelElement.read_cons_threw {M : Type} (c : Codec M) (q : MQSendRecv)
    (m : SerializedMessage) (rest : List SerializedMessage) (sample left : M) (cod : Bool)
    (hq : q.queue = m :: rest)
    (hd : c.deserializeMessage m sample = DecodeOutcome.threw left) :
    MQChannelElement.read c q sample cod
      = ReadResult.threw Thrown.decode_error left { q with queue := rest } := by
  simp [MQChannelElement.read, MQSendRecv.mqRead, hq, hd]

/-- The two-field codec honours the codec contract. -/
theorem pairCodec_lawful : pairCodec.Lawful := by
  refine ⟨fun x s => rfl, ?_⟩
  intro m hm s
  match m with
  | [] => exact ⟨s, rfl⟩
  | [a] => exact ⟨(a, s.2), rfl⟩
  | [a, b] => exact absurd rfl (hm (a, b))
  | a :: b :: _ :: _ => exact ⟨(a, b), rfl⟩

/-- C3 (as stated, refuted): the two-field codec honours the codec contract,
the one-word buffer `[7]` is malformed for it, and the read that dequeues `[7]`
exits with the decode error having changed the sample from `(0, 0)` to
`(7, 0)`: the sample is not left equal to its value before the call. -/
theorem MQChannelElement_read_decode_error_changes_sample :
    pairCodec.Lawful ∧
    pairCodec.Malformed [7] ∧
    MQChannelElement.read pairCodec ⟨1, [[7]], []⟩ (0, 0) false
      = ReadResult.threw Thrown.decode_error (7, 0) ⟨1, [], []⟩ := by
  refine ⟨pairCodec_lawful, ?_, rfl⟩
  intro x h
  simp [pairCodec] at h

/-- C3 (amended): for a codec that honours its contract and a dequeued byte
string `b` that is malformed for it, `read` exits with the decode error (it
returns no `FlowStatus`, in particular not `NewData`); the sample is left as
the codec left it when it failed; the message is consumed and the element
stays usable: the next read dequeues the following message, and that one
being the serialization of `x`, it returns `NewData` with the sample equal to
`x`. -/
theorem MQChannelElement_read_decode_error {M : Type} (c : Codec M) (q : MQSendRecv)
    (b : SerializedMessage) (x : M) (rest : List SerializedMessage) (sample : M)
    (cod₁ cod₂ : Bool)
    (hlaw : c.Lawful)
    (hb : c.Malformed b)
    (hq : q.queue = b :: c.serializeMessage x :: rest) :
    ∃ left : M,
      c.deserializeMessage b sample = DecodeOutcome.threw left ∧
      MQChannelElement.read c q sample cod₁
        = ReadResult.threw Thrown.decode_error left
            { q with queue := c.serializeMessage x :: rest } ∧
      (MQChannelElement.read c q sample cod₁).status = none ∧
      MQChannelElement.read c { q with queue := c.serializeMessage x :: rest } left cod₂
        = ReadResult.returned FlowStatus.NewData x { q with queue := rest } := by
  obtain ⟨left, hleft⟩ := hlaw.2 b hb sample
  have h1 := MQChannelElement.read_cons_threw c q b _ sample left cod₁ hq hleft
  refine ⟨left, hleft, h1, ?_, ?_⟩
  · rw [h1]; rfl
  · exact MQChannelElement.read_cons c _ (c.serializeMessage x) rest left x cod₂ rfl
      (hlaw.1 x left)

/-- Witness for C3 (amended): the malformed `[7]` followed by the serialization
of `(5, 6)`, read through the two-field codec. -/
theorem MQChannelElement_read_decode_error_witness :
    ∃ left : Nat × Nat,
      pairCodec.deserializeMessage [7] (0, 0) = DecodeOutcome.threw left ∧
      MQChannelElement.read pairCodec ⟨2, [[7], [5, 6]], []⟩ (0, 0) false
        = ReadResult.threw Thrown.decode_error left ⟨2, [[5, 6]], []⟩ ∧
      (MQChannelElement.read pairCodec ⟨2, [[7], [5, 6]], []⟩ (0, 0) false).status = none ∧
      MQChannelElement.read pairCodec ⟨2, [[5, 6]], []⟩ left false
        = ReadResult.returned FlowStatus.NewData (5, 6) ⟨2, [], []⟩ :=
  MQChannelElement_read_decode_error pairCodec ⟨2, [[7], [5, 6]], []⟩ [7] (5, 6) [] (0, 0)
    false false pairCodec_lawful (by intro x h; simp [pairCodec] at h) rfl

/-- C4: `write` makes exactly one enqueue attempt, of exactly the bytes the
codec produced for the sample; it returns true exactly when that attempt put
the message into the queue, and false exactly when the queue was at capacity
(the only failure `write` reports, the codec having none), the queue being
then unchanged.  With capacity 1 and an empty queue, the first write succeeds,
a second write without a read in between fails, and after one read, which
dequeues the message and returns `NewData` unless the codec fails on it, a
further write succeeds. -/
theorem MQChannelElement_write_single_enqueue {M : Type} (c : Codec M) (q : MQSendRecv)
    (sample x₁ x₂ x₃ out : M) (cod : Bool) (sent₀ : List SerializedMessage) :
    (MQChannelElement.write c q sample).2.sent = q.sent ++ [c.serializeMessage sample] ∧
    (MQChannelElement.write c q sample).2.capacity = q.capacity ∧
    (MQChannelElement.write c q sample).1 = decide (q.queue.length < q.capacity) ∧
    (MQChannelElement.write c q sample).2.queue
      = (if (MQChannelElement.write c q sample).1 then q.queue ++ [c.serializeMessage sample]
          else q.queue) ∧
    ((MQChannelElement.write c q sample).1 = false ↔ q.capacity ≤ q.queue.length) ∧
    (let w₁ := MQChannelElement.write c ⟨1, [], sent₀⟩ x₁
     let w₂ := MQChannelElement.write c w₁.2 x₂
     let rd := MQChannelElement.read c w₂.2 out cod
     let w₃ := MQChannelElement.write c rd.state x₃
     w₁.1 = true ∧ w₂.1 = false ∧ w₂.2.queue = [c.serializeMessage x₁] ∧
     rd.status = (match c.deserializeMessage (c.serializeMessage x₁) out with
       | DecodeOutcome.returned _ => some FlowStatus.NewData
       | DecodeOutcome.threw _ => none) ∧
     rd.state.queue = [] ∧
     w₃.1 = true ∧ w₃.2.queue = [c.serializeMessage x₃]) := by
  refine ⟨?_, ?_, ?_, ?_, ?_, ?_⟩
  · simp only [MQChannelElement.write, MQSendRecv.mqWrite]; split <;> rfl
  · simp only [MQChannelElement.write, MQSendRecv.mqWrite]; split <;> rfl
  · simp only [MQChannelElement.write, MQSendRecv.mqWrite]; split <;> simp [*]
  · simp only [MQChannelElement.write, MQSendRecv.mqWrite]; split <;> simp [*]
  · simp only [MQChannelElement.write, MQSendRecv.mqWrite]; split
    · simp [*]
    · simp [*]; omega
  · cases hd : c.deserializeMessage (c.serializeMessage x₁) out <;>
      simp [MQChannelElement.write, MQSendRecv.mqWrite, MQChannelElement.read,
        MQSendRecv.mqRead, hd, ReadResult.status, ReadResult.state]

/-- C5: with a codec for which deserializing a serialization gives the sample
back, and a sender and a receiver on the same, initially empty queue, a
successful `write x` followed by a `read` returns `NewData` and leaves the
sample equal to `x`. -/
theorem MQChannelElement_write_read_roundtrip {M : Type} (c : Codec M) (q : MQSendRecv)
    (x out : M) (cod : Bool)
    (hq : q.queue = [])
    (hrt : ∀ (y s : M), c.deserializeMessage (c.serializeMessage y) s = DecodeOutcome.returned y)
    (hw : (MQChannelElement.write c q x).1 = true) :
    (MQChannelElement.read c (MQChannelElement.write c q x).2 out cod).status
      = some FlowStatus.NewData ∧
    (MQChannelElement.read c (MQChannelElement.write c q x).2 out cod).sample = x ∧
    (MQChannelElement.read c (MQChannelElement.write c q x).2 out cod).state.queue = [] := by
  have hlt : q.queue.length < q.capacity := by
    by_contra hn
    simp [MQChannelElement.write, MQSendRecv.mqWrite, hn] at hw
  have hqueue : (MQChannelElement.write c q x).2.queue = c.serializeMessage x :: [] := by
    simp only [MQChannelElement.write, MQSendRecv.mqWrite, if_pos hlt]
    simp [hq]
  rw [MQChannelElement.read_cons c _ _ _ out x cod hqueue (hrt x out)]
  exact ⟨rfl, rfl, rfl⟩

/-- Witness for C5: the sample `5` through a queue of capacity 1. -/
theorem MQChannelElement_write_read_roundtrip_witness :
    (MQChannelElement.read natCodec (MQChannelElement.write natCodec ⟨1, [], []⟩ 5).2 0
        false).status = some FlowStatus.NewData ∧
    (MQChannelElement.read natCodec (MQChannelElement.write natCodec ⟨1, [], []⟩ 5).2 0
        false).sample = 5 ∧
    (MQChannelElement.read natCodec (MQChannelElement.write natCodec ⟨1, [], []⟩ 5).2 0
        false).state.queue = [] :=
  MQChannelElement_write_read_roundtrip natCodec ⟨1, [], []⟩ 5 0 false rfl (fun _ _ => rfl) rfl

/-- C11 (as stated, refuted): the dequeue succeeds, `mqRead` hands over the
three-word buffer `[3, 4, 5]`, and the two-field codec, which honours its
contract, fails on it; `read` then exits with the decode error instead of
returning `NewData`. -/
theorem MQChannelElement_read_dequeued_not_NewData :
    pairCodec.Lawful ∧
    (MQSendRecv.mqRead ⟨2, [[3, 4, 5]], []⟩).1 = some [3, 4, 5] ∧
    MQChannelElement.read pairCodec ⟨2, [[3, 4, 5]], []⟩ (0, 0) true
      = ReadResult.threw Thrown.decode_error (3, 4) ⟨2, [], []⟩ ∧
    (MQChannelElement.read pairCodec ⟨2, [[3, 4, 5]], []⟩ (0, 0) true).status
      ≠ some FlowStatus.NewData :=
  ⟨pairCodec_lawful, rfl, rfl, by decide⟩

/-- C11 (amended): for every receiving `MQChannelElement`, every sample and
both values of `copy_old_data`: when `mqRead` dequeued a message and the codec
call returned, `read` returns `NewData` with the decoded sample; when `mqRead`
dequeued a message and the codec failed on it, `read` exits with the decode
error, the sample being as the codec left it; when `mqRead` dequeued nothing,
`read` returns `NoData` and the sample is the one of before the call.  It
never returns `OldData`, the whole outcome is the same for `copy_old_data` and
its negation, and the queue handle is as `mqRead` left it. -/
theorem MQChannelElement_read_flow_status {M : Type} (c : Codec M) (q : MQSendRecv)
    (sample : M) (copy_old_data : Bool) :
    MQChannelElement.read c q sample copy_old_data
      = (match q.mqRead.1 with
         | some m =>
           match c.deserializeMessage m sample with
           | DecodeOutcome.returned decoded =>
             ReadResult.returned FlowStatus.NewData decoded q.mqRead.2
           | DecodeOutcome.threw left =>
             ReadResult.threw Thrown.decode_error left q.mqRead.2
         | none => ReadResult.returned FlowStatus.NoData sample q.mqRead.2) ∧
    (MQChannelElement.read c q sample copy_old_data).status ≠ some FlowStatus.OldData ∧
    MQChannelElement.read c q sample copy_old_data
      = MQChannelElement.read c q sample (!copy_old_data) := by
  cases hq : q.queue with
  | nil => simp [MQChannelElement.read, MQSendRecv.mqRead, hq, ReadResult.status]
  | cons m rest =>
    cases hd : c.deserializeMessage m sample <;>
      simp [MQChannelElement.read, MQSendRecv.mqRead, hq, hd, ReadResult.status]

/-! ## Theorems: pipeline construction -/

/-- Applying `modifyAt` beyond the first part of an append acts on the second part. -/
theorem modifyAt_append_add {α : Type} (f : α → α) (l r : List α) (k : Nat) :
    modifyAt f (l ++ r) (l.length + k) = l ++ modifyAt f r k := by
  induction l with
  | nil => simp
  | cons a l ih =>
    have h : (a :: l).length + k = (l.length + k) + 1 := by simp; omega
    rw [h]
    simp [modifyAt, ih]

/-- Applying `modifyAt` at the first index past the first part of an append. -/
theorem modifyAt_append_length {α : Type} (f : α → α) (l r : List α) :
    modifyAt f (l ++ r) l.length = l ++ modifyAt f r 0 := by
  have h := modifyAt_append_add f l r 0
  simpa using h

/-- Lookup beyond the first part of an append. -/
theorem getElem?_append_add {α : Type} (l r : List α) (k : Nat) :
    (l ++ r)[l.length + k]? = r[k]? := by
  rw [List.getElem?_append_right (by omega)]
  simp

/-- Lookup at the first index past the first part of an append. -/
theorem getElem?_append_length {α : Type} (l r : List α) :
    (l ++ r)[l.length]? = r[0]? := by
  simpa using getElem?_append_add l r 0

/-- The state `createConnection` produces, written out. -/
theorem ConnFactory.createConnection_eq {M : Type} [Inhabited M] (w : World M)
    (publication subscription : ConnectionBasePtr) :
    ConnFactory.createConnection w publication subscription =
      (true,
        { heap := w.heap ++
            [⟨ElementKind.ConnOutputEndpoint subscription, none, some (w.heap.length + 1), 0⟩,
             ⟨ElementKind.ChannelDataElement ⟨default, 0⟩ 0, some w.heap.length,
               some (w.heap.length + 2), 1⟩,
             ⟨ElementKind.ConnInputEndpoint publication, some (w.heap.length + 1), none, 1⟩],
          connections :=
            modifyAt (fun cb => { cb with channel := some w.heap.length })
              (modifyAt (fun cb => { cb with channel := some (w.heap.length + 2) })
                w.connections publication) subscription,
          advertised := w.advertised,
          subscribed := w.subscribed,
          log := w.log ++
            [FactoryEvent.createConnection publication subscription,
             FactoryEvent.setOutput (w.heap.length + 1) w.heap.length,
             FactoryEvent.setOutput (w.heap.length + 2) (w.heap.length + 1),
             FactoryEvent.createAndCheckConnection publication subscription
               (w.heap.length + 2)] }) := by
  simp only [ConnFactory.createConnection, ConnFactory.buildBufferedChannelOutput,
    ConnFactory.buildDataStorage, ConnFactory.buildChannelInput,
    ConnFactory.createAndCheckConnection, World.alloc, World.record, World.setOutput,
    World.addConnection, List.append_assoc, List.singleton_append, List.cons_append,
    List.nil_append, List.length_append, List.length_cons, List.length_nil, Nat.zero_add,
    Nat.reduceAdd,
    modifyAt_append_add, modifyAt_append_length, modifyAt,
    getOutputEndPoint, getElem?_append_add, getElem?_append_length,
    List.getElem?_cons_succ, List.getElem?_cons_zero]

/-- The state `createStream` produces for a sender whose queue opens. -/
theorem ConnFactory.createStream_sender_eq {M : Type} (env : Env) (w : World M)
    (connection : ConnectionBasePtr) (mq : MQSendRecv)
    (h : env.setupStream connection true = some mq) :
    ConnFactory.createStream env w connection true =
      (env.checkStream connection true,
        { heap := w.heap ++
            [⟨ElementKind.ConnInputEndpoint connection, some (w.heap.length + 1), none, 1⟩,
             ⟨ElementKind.MQChannelElement connection true mq, none, some w.heap.length, 0⟩],
          connections :=
            if env.checkStream connection true then
              modifyAt (fun cb => { cb with mq_channel := some w.heap.length })
                w.connections connection
            else w.connections,
          advertised := w.advertised,
          subscribed := w.subscribed,
          log := w.log ++
            [FactoryEvent.createStream connection true,
             FactoryEvent.setOutput w.heap.length (w.heap.length + 1),
             FactoryEvent.createAndCheckStream connection w.heap.length true] }) := by
  simp only [ConnFactory.createStream, ConnFactory.buildChannelInput, ConnFactory.createMqStream,
    MQChannelElement.new, h, ConnFactory.createAndCheckStream,
    World.alloc, World.record, World.setOutput,
    World.addMQConnection, List.append_assoc, List.singleton_append, List.cons_append,
    List.nil_append, List.length_append, List.length_cons, List.length_nil, Nat.zero_add,
    Nat.reduceAdd, if_true,
    modifyAt_append_add, modifyAt_append_length, modifyAt]
  cases env.checkStream connection true <;> simp

/-- The state `createStream` produces for a receiver whose queue opens. -/
theorem ConnFactory.createStream_receiver_eq {M : Type} (env : Env) (w : World M)
    (connection : ConnectionBasePtr) (mq : MQSendRecv)
    (h : env.setupStream connection false = some mq) :
    ConnFactory.createStream env w connection false =
      (env.checkStream connection false,
        { heap := w.heap ++
            [⟨ElementKind.ConnOutputEndpoint connection, none, some (w.heap.length + 1), 0⟩,
             ⟨ElementKind.MQChannelElement connection false mq, some w.heap.length, none, 1⟩],
          connections :=
            if env.checkStream connection false then
              modifyAt (fun cb => { cb with mq_channel := some w.heap.length })
                w.connections connection
            else w.connections,
          advertised := w.advertised,
          subscribed := w.subscribed,
          log := w.log ++
            [FactoryEvent.createStream connection false,
             FactoryEvent.setOutput (w.heap.length + 1) w.heap.length,
             FactoryEvent.createAndCheckStream connection (w.heap.length + 1) false] }) := by
  simp only [ConnFactory.createStream, ConnFactory.buildChannelOutput, ConnFactory.createMqStream,
    MQChannelElement.new, h, ConnFactory.createAndCheckStream,
    World.alloc, World.record, World.setOutput,
    World.addMQConnection, List.append_assoc, List.singleton_append, List.cons_append,
    List.nil_append, List.length_append, List.length_cons, List.length_nil, Nat.zero_add,
    Nat.reduceAdd, if_true, Bool.false_eq_true, if_false,
    modifyAt_append_add, modifyAt_append_length, modifyAt,
    getOutputEndPoint, getElem?_append_add, getElem?_append_length,
    List.getElem?_cons_succ, List.getElem?_cons_zero]
  cases env.checkStream connection false <;> simp

/-- The state `createStream` produces when the queue adapter constructor throws. -/
theorem ConnFactory.createStream_fail_eq {M : Type} (env : Env) (w : World M)
    (connection : ConnectionBasePtr) (is_sender : Bool)
    (h : env.setupStream connection is_sender = none) :
    ConnFactory.createStream env w connection is_sender =
      (false,
        { w with
          heap := w.heap ++
            [⟨if is_sender then ElementKind.ConnInputEndpoint connection
              else ElementKind.ConnOutputEndpoint connection, none, none, 0⟩],
          log := w.log ++ [FactoryEvent.createStream connection is_sender] }) := by
  cases is_sender <;>
  simp only [ConnFactory.createStream, ConnFactory.buildChannelInput,
    ConnFactory.buildChannelOutput, ConnFactory.createMqStream,
    MQChannelElement.new, h, World.alloc, World.record, if_true, Bool.false_eq_true, if_false]

/-- The length is kept by `modifyAt`. -/
theorem modifyAt_length {α : Type} (f : α → α) (l : List α) (i : Nat) :
    (modifyAt f l i).length = l.length := by
  induction l generalizing i with
  | nil => rfl
  | cons a l ih =>
    cases i with
    | zero => rfl
    | succ i => simp [modifyAt, ih]

/-- What `createStream` leaves alone: the registry and the size of the
connection table; and it logs no call of `createConnection`. -/
theorem ConnFactory.createStream_frame {M : Type} (env : Env) (w : World M)
    (connection : ConnectionBasePtr) (is_sender : Bool) :
    (ConnFactory.createStream env w connection is_sender).2.advertised = w.advertised ∧
    (ConnFactory.createStream env w connection is_sender).2.subscribed = w.subscribed ∧
    (ConnFactory.createStream env w connection is_sender).2.connections.length
      = w.connections.length ∧
    ∃ L, (ConnFactory.createStream env w connection is_sender).2.log = w.log ++ L ∧
      L.filter FactoryEvent.isCreateConnection = [] := by
  cases h : env.setupStream connection is_sender with
  | none =>
    rw [ConnFactory.createStream_fail_eq env w connection is_sender h]
    exact ⟨rfl, rfl, rfl, _, rfl, rfl⟩
  | some mq =>
    cases is_sender with
    | true =>
      rw [ConnFactory.createStream_sender_eq env w connection mq h]
      refine ⟨rfl, rfl, ?_, _, rfl, rfl⟩
      dsimp only
      split
      · exact modifyAt_length _ _ _
      · rfl
    | false =>
      rw [ConnFactory.createStream_receiver_eq env w connection mq h]
      refine ⟨rfl, rfl, ?_, _, rfl, rfl⟩
      dsimp only
      split
      · exact modifyAt_length _ _ _
      · rfl

/-- What `createConnection` leaves alone, and the one call of itself it logs. -/
theorem ConnFactory.createConnection_frame {M : Type} [Inhabited M] (w : World M)
    (publication subscription : ConnectionBasePtr) :
    (ConnFactory.createConnection w publication subscription).2.advertised = w.advertised ∧
    (ConnFactory.createConnection w publication subscription).2.subscribed = w.subscribed ∧
    (ConnFactory.createConnection w publication subscription).2.connections.length
      = w.connections.length ∧
    ∃ L, (ConnFactory.createConnection w publication subscription).2.log = w.log ++ L ∧
      L.filter FactoryEvent.isCreateConnection
        = [FactoryEvent.createConnection publication subscription] := by
  rw [ConnFactory.createConnection_eq]
  refine ⟨rfl, rfl, ?_, _, rfl, rfl⟩
  simp [modifyAt_length]

/-- A successful `advertise`: the publisher returned, the registry, the size of
the connection table, and the calls of `createConnection` it logged. -/
theorem NodeHandle.advertise_ok {M : Type} [Inhabited M] (env : Env) (w : World M)
    (topic : String) (queue_size : Nat) (latch : Bool)
    (ha : env.rosAdvertise topic queue_size latch = true) :
    (NodeHandle.advertise env w topic queue_size latch).1 = some ⟨w.connections.length⟩ ∧
    (NodeHandle.advertise env w topic queue_size latch).2.advertised
      = w.advertised ++ [(topic, w.connections.length)] ∧
    (NodeHandle.advertise env w topic queue_size latch).2.subscribed = w.subscribed ∧
    (NodeHandle.advertise env w topic queue_size latch).2.connections.length
      = w.connections.length + 1 ∧
    ∃ L, (NodeHandle.advertise env w topic queue_size latch).2.log = w.log ++ L ∧
      L.filter FactoryEvent.isCreateConnection
        = match TopicManager.findSubConnection w topic with
          | some ls => [FactoryEvent.createConnection w.connections.length ls]
          | none => [] := by
  obtain ⟨f1, f2, f3, L, f4, f5⟩ := ConnFactory.createStream_frame env
    (TopicManager.addPubConnection (w.newConnection topic none).2 topic (w.newConnection topic none).1)
    (w.newConnection topic none).1 true
  have hfind : TopicManager.findSubConnection
      (ConnFactory.createStream env
        (TopicManager.addPubConnection (w.newConnection topic none).2 topic (w.newConnection topic none).1)
        (w.newConnection topic none).1 true).2 topic = TopicManager.findSubConnection w topic := by
    simp only [TopicManager.findSubConnection, f2]
    rfl
  simp only [NodeHandle.advertise, ha, if_true, hfind]
  cases hls : TopicManager.findSubConnection w topic with
  | none =>
    refine ⟨rfl, ?_, ?_, ?_, L, ?_, ?_⟩
    · simpa [TopicManager.addPubConnection, World.newConnection] using f1
    · simpa [TopicManager.addPubConnection, World.newConnection] using f2
    · simpa [TopicManager.addPubConnection, World.newConnection] using f3
    · simpa [TopicManager.addPubConnection, World.newConnection] using f4
    · simpa using f5
  | some ls =>
    obtain ⟨g1, g2, g3, L', g4, g5⟩ := ConnFactory.createConnection_frame
      (ConnFactory.createStream env
        (TopicManager.addPubConnection (w.newConnection topic none).2 topic (w.newConnection topic none).1)
        (w.newConnection topic none).1 true).2 (w.newConnection topic none).1 ls
    refine ⟨rfl, ?_, ?_, ?_, L ++ L', ?_, ?_⟩
    · dsimp only; rw [g1, f1]; rfl
    · dsimp only; rw [g2, f2]; rfl
    · dsimp only; rw [g3, f3]; simp [TopicManager.addPubConnection, World.newConnection]
    · dsimp only; rw [g4, f4]; simp [TopicManager.addPubConnection, World.newConnection]
    · rw [List.filter_append, f5, g5]; rfl


/-- A successful `subscribe`: the subscriber returned, the registry, the size of
the connection table, and the calls of `createConnection` it logged. -/
theorem NodeHandle.subscribe_ok {M : Type} [Inhabited M] (env : Env) (w : World M)
    (topic : String) (queue_size : Nat) (fp : Option CallbackPtr)
    (ha : env.rosSubscribe topic queue_size = true) :
    (NodeHandle.subscribe env w topic queue_size fp).1 = some ⟨w.connections.length⟩ ∧
    (NodeHandle.subscribe env w topic queue_size fp).2.advertised = w.advertised ∧
    (NodeHandle.subscribe env w topic queue_size fp).2.subscribed
      = w.subscribed ++ [(topic, w.connections.length)] ∧
    (NodeHandle.subscribe env w topic queue_size fp).2.connections.length
      = w.connections.length + 1 ∧
    ∃ L, (NodeHandle.subscribe env w topic queue_size fp).2.log = w.log ++ L ∧
      L.filter FactoryEvent.isCreateConnection
        = match TopicManager.findPubConnection w topic with
          | some lp => [FactoryEvent.createConnection lp w.connections.length]
          | none => [] := by
  obtain ⟨f1, f2, f3, L, f4, f5⟩ := ConnFactory.createStream_frame env
    (TopicManager.addSubConnection (w.newConnection topic fp).2 topic (w.newConnection topic fp).1)
    (w.newConnection topic fp).1 false
  have hfind : TopicManager.findPubConnection
      (ConnFactory.createStream env
        (TopicManager.addSubConnection (w.newConnection topic fp).2 topic (w.newConnection topic fp).1)
        (w.newConnection topic fp).1 false).2 topic = TopicManager.findPubConnection w topic := by
    simp only [TopicManager.findPubConnection, f1]
    rfl
  simp only [NodeHandle.subscribe, ha, if_true, hfind]
  cases hls : TopicManager.findPubConnection w topic with
  | none =>
    refine ⟨rfl, ?_, ?_, ?_, L, ?_, ?_⟩
    · simpa [TopicManager.addSubConnection, World.newConnection] using f1
    · simpa [TopicManager.addSubConnection, World.newConnection] using f2
    · simpa [TopicManager.addSubConnection, World.newConnection] using f3
    · simpa [TopicManager.addSubConnection, World.newConnection] using f4
    · simpa using f5
  | some ls =>
    obtain ⟨g1, g2, g3, L', g4, g5⟩ := ConnFactory.createConnection_frame
      (ConnFactory.createStream env
        (TopicManager.addSubConnection (w.newConnection topic fp).2 topic (w.newConnection topic fp).1)
        (w.newConnection topic fp).1 false).2 ls (w.newConnection topic fp).1
    refine ⟨rfl, ?_, ?_, ?_, L ++ L', ?_, ?_⟩
    · dsimp only; rw [g1, f1]; rfl
    · dsimp only; rw [g2, f2]; rfl
    · dsimp only; rw [g3, f3]; simp [TopicManager.addSubConnection, World.newConnection]
    · dsimp only; rw [g4, f4]; simp [TopicManager.addSubConnection, World.newConnection]
    · rw [List.filter_append, f5, g5]; rfl


/-- Looking up a topic the list has no entry for, after one entry for it was appended. -/
theorem find_append_new (l : List (String × ConnectionBasePtr)) (topic : String)
    (c : ConnectionBasePtr) (h : (l.find? (fun e => e.1 == topic)).map Prod.snd = none) :
    ((l ++ [(topic, c)]).find? (fun e => e.1 == topic)).map Prod.snd = some c := by
  have h1 : l.find? (fun e => e.1 == topic) = none := by
    cases hf : l.find? (fun e => e.1 == topic) with
    | none => rfl
    | some a => rw [hf] at h; simp at h
  simp [List.find?_append, h1]

/-- C6: when the `MQChannelElement` constructor throws while opening the queue,
for a sender as for a receiver, `createMqStream` catches the exception and
returns the empty pointer, `createStream` returns false, the only call it
logs is its own (`createAndCheckStream` is never invoked), and no connection
has anything attached that it did not have before. -/
theorem createStream_constructor_failure {M : Type} (env : Env) (w : World M)
    (connection : ConnectionBasePtr) (is_sender : Bool)
    (h : env.setupStream connection is_sender = none) :
    MQChannelElement.new env w connection is_sender = Except.error () ∧
    ConnFactory.createMqStream env w connection is_sender = (none, w) ∧
    (ConnFactory.createStream env w connection is_sender).1 = false ∧
    eventsSince (ConnFactory.createStream env w connection is_sender).2 w.log.length
      = [FactoryEvent.createStream connection is_sender] ∧
    (eventsSince (ConnFactory.createStream env w connection is_sender).2 w.log.length).filter
      FactoryEvent.isCreateAndCheckStream = [] ∧
    (ConnFactory.createStream env w connection is_sender).2.connections = w.connections := by
  rw [ConnFactory.createStream_fail_eq env w connection is_sender h]
  simp [MQChannelElement.new, ConnFactory.createMqStream, h, eventsSince,
    FactoryEvent.isCreateAndCheckStream]

/-- Witness for C6: a receiver whose queue cannot be opened, in an empty process. -/
theorem createStream_constructor_failure_witness :
    MQChannelElement.new ⟨fun _ _ => none, fun _ _ => true, fun _ _ _ => true, fun _ _ => true⟩
      (⟨[], [⟨"chatter", none, none, none⟩], [], [("chatter", 0)], []⟩ : World Nat) 0 false
      = Except.error () ∧
    ConnFactory.createMqStream
      ⟨fun _ _ => none, fun _ _ => true, fun _ _ _ => true, fun _ _ => true⟩
      (⟨[], [⟨"chatter", none, none, none⟩], [], [("chatter", 0)], []⟩ : World Nat) 0 false
      = (none, ⟨[], [⟨"chatter", none, none, none⟩], [], [("chatter", 0)], []⟩) ∧
    (ConnFactory.createStream
      ⟨fun _ _ => none, fun _ _ => true, fun _ _ _ => true, fun _ _ => true⟩
      (⟨[], [⟨"chatter", none, none, none⟩], [], [("chatter", 0)], []⟩ : World Nat) 0 false).1
      = false ∧
    eventsSince (ConnFactory.createStream
      ⟨fun _ _ => none, fun _ _ => true, fun _ _ _ => true, fun _ _ => true⟩
      (⟨[], [⟨"chatter", none, none, none⟩], [], [("chatter", 0)], []⟩ : World Nat) 0 false).2 0
      = [FactoryEvent.createStream 0 false] ∧
    (eventsSince (ConnFactory.createStream
      ⟨fun _ _ => none, fun _ _ => true, fun _ _ _ => true, fun _ _ => true⟩
      (⟨[], [⟨"chatter", none, none, none⟩], [], [("chatter", 0)], []⟩ : World Nat) 0 false).2 0).filter
      FactoryEvent.isCreateAndCheckStream = [] ∧
    (ConnFactory.createStream
      ⟨fun _ _ => none, fun _ _ => true, fun _ _ _ => true, fun _ _ => true⟩
      (⟨[], [⟨"chatter", none, none, none⟩], [], [("chatter", 0)], []⟩ : World Nat) 0 false).2.connections
      = [⟨"chatter", none, none, none⟩] :=
  createStream_constructor_failure
    ⟨fun _ _ => none, fun _ _ => true, fun _ _ _ => true, fun _ _ => true⟩
    (⟨[], [⟨"chatter", none, none, none⟩], [], [("chatter", 0)], []⟩ : World Nat) 0 false rfl

/-- C9: the chain `createConnection` hands to `createAndCheckConnection` has
exactly three elements, all allocated by this call: the `ConnInputEndpoint`
of the publication, whose output is a `ChannelDataElement` seeded with the
default sample, whose output is the `ConnOutputEndpoint` of the subscription,
which has no output.  `setOutput` is called exactly twice, once on each of the
two elements that have an output and never on the last one; the three
elements are distinct and the walk along the outputs stops at the third. -/
theorem createConnection_chain_shape {M : Type} [Inhabited M] (w : World M)
    (publication subscription : ConnectionBasePtr) (k : Nat) :
    eventsSince (ConnFactory.createConnection w publication subscription).2 w.log.length
      = [FactoryEvent.createConnection publication subscription,
         FactoryEvent.setOutput (w.heap.length + 1) w.heap.length,
         FactoryEvent.setOutput (w.heap.length + 2) (w.heap.length + 1),
         FactoryEvent.createAndCheckConnection publication subscription (w.heap.length + 2)] ∧
    (ConnFactory.createConnection w publication subscription).2.heap
      = w.heap ++
          [⟨ElementKind.ConnOutputEndpoint subscription, none, some (w.heap.length + 1), 0⟩,
           ⟨ElementKind.ChannelDataElement ⟨default, 0⟩ 0, some w.heap.length,
             some (w.heap.length + 2), 1⟩,
           ⟨ElementKind.ConnInputEndpoint publication, some (w.heap.length + 1), none, 1⟩] ∧
    chainFrom (ConnFactory.createConnection w publication subscription).2.heap (k + 3)
        (w.heap.length + 2)
      = [w.heap.length + 2, w.heap.length + 1, w.heap.length] ∧
    [w.heap.length + 2, w.heap.length + 1, w.heap.length].Nodup := by
  rw [ConnFactory.createConnection_eq]
  refine ⟨by simp [eventsSince], rfl, ?_, by simp⟩
  simp only [chainFrom, getElem?_append_add, getElem?_append_length,
    List.getElem?_cons_succ, List.getElem?_cons_zero]

/-- C10: when the queue adapter is constructed, `createStream` for a sender
hands to `createAndCheckStream` the `ConnInputEndpoint` of the connection,
whose output is the sending `MQChannelElement`, which has no output; for a
receiver it hands over the receiving `MQChannelElement`, whose output is the
`ConnOutputEndpoint` of the connection, which has no output.  Either half is
made of the two elements its own call allocated at the end of the heap, none
of them a `ChannelDataElement`; a receiver half built after a sender half
leaves the sender half as it was and shares no element with it. -/
theorem createStream_chain_shape {M : Type} (env : Env) (w w' : World M)
    (c c' : ConnectionBasePtr) (mq mq' : MQSendRecv) (k : Nat)
    (h : env.setupStream c true = some mq) (h' : env.setupStream c' false = some mq') :
    (eventsSince (ConnFactory.createStream env w c true).2 w.log.length
      = [FactoryEvent.createStream c true,
         FactoryEvent.setOutput w.heap.length (w.heap.length + 1),
         FactoryEvent.createAndCheckStream c w.heap.length true] ∧
     (ConnFactory.createStream env w c true).2.heap
      = w.heap ++
          [⟨ElementKind.ConnInputEndpoint c, some (w.heap.length + 1), none, 1⟩,
           ⟨ElementKind.MQChannelElement c true mq, none, some w.heap.length, 0⟩] ∧
     chainFrom (ConnFactory.createStream env w c true).2.heap (k + 2) w.heap.length
      = [w.heap.length, w.heap.length + 1]) ∧
    (eventsSince (ConnFactory.createStream env w' c' false).2 w'.log.length
      = [FactoryEvent.createStream c' false,
         FactoryEvent.setOutput (w'.heap.length + 1) w'.heap.length,
         FactoryEvent.createAndCheckStream c' (w'.heap.length + 1) false] ∧
     (ConnFactory.createStream env w' c' false).2.heap
      = w'.heap ++
          [⟨ElementKind.ConnOutputEndpoint c', none, some (w'.heap.length + 1), 0⟩,
           ⟨ElementKind.MQChannelElement c' false mq', some w'.heap.length, none, 1⟩] ∧
     chainFrom (ConnFactory.createStream env w' c' false).2.heap (k + 2) (w'.heap.length + 1)
      = [w'.heap.length + 1, w'.heap.length]) ∧
    (chainFrom
        (ConnFactory.createStream env (ConnFactory.createStream env w c true).2 c' false).2.heap
        (k + 2) w.heap.length
      = [w.heap.length, w.heap.length + 1] ∧
     chainFrom
        (ConnFactory.createStream env (ConnFactory.createStream env w c true).2 c' false).2.heap
        (k + 2) (w.heap.length + 3)
      = [w.heap.length + 3, w.heap.length + 2] ∧
     List.Disjoint [w.heap.length, w.heap.length + 1]
       [w.heap.length + 3, w.heap.length + 2]) := by
  rw [ConnFactory.createStream_receiver_eq env _ c' mq' h',
    ConnFactory.createStream_receiver_eq env _ c' mq' h',
    ConnFactory.createStream_sender_eq env w c mq h]
  refine ⟨⟨by simp [eventsSince], rfl, ?_⟩, ⟨by simp [eventsSince], rfl, ?_⟩, ?_, ?_, ?_⟩
  · simp only [chainFrom, getElem?_append_add, getElem?_append_length,
      List.getElem?_cons_succ, List.getElem?_cons_zero]
  · simp only [chainFrom, getElem?_append_add, getElem?_append_length,
      List.getElem?_cons_succ, List.getElem?_cons_zero]
  · simp only [chainFrom, List.append_assoc, List.cons_append, List.nil_append,
      getElem?_append_add, getElem?_append_length,
      List.getElem?_cons_succ, List.getElem?_cons_zero]
  · simp only [chainFrom, List.append_assoc, List.cons_append, List.nil_append,
      List.length_append, List.length_cons, List.length_nil, Nat.zero_add, Nat.reduceAdd,
      getElem?_append_add, getElem?_append_length,
      List.getElem?_cons_succ, List.getElem?_cons_zero]
  · simp

/-- Witness for C10: both halves in an empty process, with queues of capacity 4. -/
theorem createStream_chain_shape_witness :
    (ConnFactory.createStream
        ⟨fun _ _ => some ⟨4, [], []⟩, fun _ _ => true, fun _ _ _ => true, fun _ _ => true⟩
        (⟨[], [⟨"chatter", none, none, none⟩], [], [], []⟩ : World Nat) 0 true).2.heap
      = [⟨ElementKind.ConnInputEndpoint 0, some 1, none, 1⟩,
         ⟨ElementKind.MQChannelElement 0 true ⟨4, [], []⟩, none, some 0, 0⟩] ∧
    (ConnFactory.createStream
        ⟨fun _ _ => some ⟨4, [], []⟩, fun _ _ => true, fun _ _ _ => true, fun _ _ => true⟩
        (⟨[], [⟨"chatter", none, none, none⟩], [], [], []⟩ : World Nat) 0 false).2.heap
      = [⟨ElementKind.ConnOutputEndpoint 0, none, some 1, 0⟩,
         ⟨ElementKind.MQChannelElement 0 false ⟨4, [], []⟩, some 0, none, 1⟩] :=
  have t := createStream_chain_shape
    ⟨fun _ _ => some ⟨4, [], []⟩, fun _ _ => true, fun _ _ _ => true, fun _ _ => true⟩
    (⟨[], [⟨"chatter", none, none, none⟩], [], [], []⟩ : World Nat)
    (⟨[], [⟨"chatter", none, none, none⟩], [], [], []⟩ : World Nat) 0 0 ⟨4, [], []⟩ ⟨4, [], []⟩ 0
    rfl rfl
  ⟨t.1.2.1, t.2.1.2.1⟩

/-- Lookup in a list after `modifyAt`. -/
theorem getElem?_modifyAt {α : Type} (f : α → α) (l : List α) (i j : Nat) :
    (modifyAt f l i)[j]? = if i = j then l[j]?.map f else l[j]? := by
  induction l generalizing i j with
  | nil => simp [modifyAt]
  | cons a l ih =>
    cases i with
    | zero =>
      cases j with
      | zero => simp [modifyAt]
      | succ j => simp [modifyAt]
    | succ i =>
      cases j with
      | zero => simp [modifyAt]
      | succ j => simp [modifyAt, ih]

/-- The walk along the outputs of three linked elements, the last without output. -/
theorem chainFrom_three {M : Type} (heap : List (ChannelElementBase M)) (a b t k : Nat)
    (ea eb et : ChannelElementBase M)
    (ha : heap[a]? = some ea) (hao : ea.output = some b)
    (hb : heap[b]? = some eb) (hbo : eb.output = some t)
    (ht : heap[t]? = some et) (hto : et.output = none) :
    chainFrom heap (k + 3) a = [a, b, t] := by
  simp [chainFrom, ha, hao, hb, hbo, ht, hto]

/-- The local channel of a connection, as a lookup in the table. -/
theorem World.getChannelElement_eq {M : Type} (w : World M) (c : ConnectionBasePtr) :
    w.getChannelElement c = (w.connections[c]?).bind ConnectionBase.channel := by
  unfold World.getChannelElement
  cases w.connections[c]? <;> rfl

/-- The callback of a connection, as a lookup in the table. -/
theorem World.getCallback_eq {M : Type} (w : World M) (c : ConnectionBasePtr) :
    w.getCallback c = (w.connections[c]?).bind ConnectionBase.callback := by
  unfold World.getCallback
  cases w.connections[c]? <;> rfl

/-- Attaching a queue chain changes neither a local channel nor a callback. -/
theorem modifyAt_mq_channel (l : List ConnectionBase) (i j : Nat) (ch : ChanPtr) :
    ((modifyAt (fun cb : ConnectionBase => { cb with mq_channel := some ch }) l i)[j]?).bind
        ConnectionBase.channel = (l[j]?).bind ConnectionBase.channel ∧
    ((modifyAt (fun cb : ConnectionBase => { cb with mq_channel := some ch }) l i)[j]?).bind
        ConnectionBase.callback = (l[j]?).bind ConnectionBase.callback := by
  rw [getElem?_modifyAt]
  by_cases h : i = j
  · rw [if_pos h]
    cases l[j]? <;> exact ⟨rfl, rfl⟩
  · rw [if_neg h]
    exact ⟨rfl, rfl⟩

/-- Attaching a local chain changes no callback. -/
theorem modifyAt_channel_callback (l : List ConnectionBase) (i j : Nat) (ch : ChanPtr) :
    ((modifyAt (fun cb : ConnectionBase => { cb with channel := some ch }) l i)[j]?).bind
        ConnectionBase.callback = (l[j]?).bind ConnectionBase.callback := by
  rw [getElem?_modifyAt]
  by_cases h : i = j
  · rw [if_pos h]
    cases l[j]? <;> rfl
  · rw [if_neg h]

/-- The local channel and the callback of every connection after `createStream`
are those of before. -/
theorem ConnFactory.createStream_channels {M : Type} (env : Env) (w : World M)
    (connection : ConnectionBasePtr) (is_sender : Bool) (c : ConnectionBasePtr) :
    (ConnFactory.createStream env w connection is_sender).2.getChannelElement c
      = w.getChannelElement c ∧
    (ConnFactory.createStream env w connection is_sender).2.getCallback c
      = w.getCallback c := by
  simp only [World.getChannelElement_eq, World.getCallback_eq]
  cases h : env.setupStream connection is_sender with
  | none =>
    rw [ConnFactory.createStream_fail_eq env w connection is_sender h]
    exact ⟨rfl, rfl⟩
  | some mq =>
    cases is_sender with
    | true =>
      rw [ConnFactory.createStream_sender_eq env w connection mq h]
      cases env.checkStream connection true
      · exact ⟨rfl, rfl⟩
      · exact modifyAt_mq_channel _ _ _ _
    | false =>
      rw [ConnFactory.createStream_receiver_eq env w connection mq h]
      cases env.checkStream connection false
      · exact ⟨rfl, rfl⟩
      · exact modifyAt_mq_channel _ _ _ _

/-- The elements `createStream` allocates are appended to the heap and none of
them is a store node. -/
theorem ConnFactory.createStream_heap {M : Type} (env : Env) (w : World M)
    (connection : ConnectionBasePtr) (is_sender : Bool) :
    ∃ X, (ConnFactory.createStream env w connection is_sender).2.heap = w.heap ++ X ∧
      countDataElements (ConnFactory.createStream env w connection is_sender).2.heap
        = countDataElements w.heap := by
  cases h : env.setupStream connection is_sender with
  | none =>
    rw [ConnFactory.createStream_fail_eq env w connection is_sender h]
    refine ⟨_, rfl, ?_⟩
    cases is_sender <;> simp [countDataElements, ElementKind.isChannelDataElement]
  | some mq =>
    cases is_sender with
    | true =>
      rw [ConnFactory.createStream_sender_eq env w connection mq h]
      exact ⟨_, rfl, by simp [countDataElements, ElementKind.isChannelDataElement]⟩
    | false =>
      rw [ConnFactory.createStream_receiver_eq env w connection mq h]
      exact ⟨_, rfl, by simp [countDataElements, ElementKind.isChannelDataElement]⟩

/-- The local connection `createConnection` builds between two distinct
connections of the table: the three elements at the end of the heap, one store
node more than before, and the two endpoints holding the ends of the chain. -/
theorem ConnFactory.createConnection_built {M : Type} [Inhabited M] (w : World M)
    (publication subscription : ConnectionBasePtr)
    (hp : publication < w.connections.length) (hs : subscription < w.connections.length)
    (hne : publication ≠ subscription) :
    (ConnFactory.createConnection w publication subscription).1 = true ∧
    (ConnFactory.createConnection w publication subscription).2.heap.length
      = w.heap.length + 3 ∧
    (ConnFactory.createConnection w publication subscription).2.heap[w.heap.length]?
      = some ⟨ElementKind.ConnOutputEndpoint subscription, none,
          some (w.heap.length + 1), 0⟩ ∧
    (ConnFactory.createConnection w publication subscription).2.heap[w.heap.length + 1]?
      = some ⟨ElementKind.ChannelDataElement ⟨default, 0⟩ 0, some w.heap.length,
          some (w.heap.length + 2), 1⟩ ∧
    (ConnFactory.createConnection w publication subscription).2.heap[w.heap.length + 2]?
      = some ⟨ElementKind.ConnInputEndpoint publication, some (w.heap.length + 1), none, 1⟩ ∧
    countDataElements (ConnFactory.createConnection w publication subscription).2.heap
      = countDataElements w.heap + 1 ∧
    (ConnFactory.createConnection w publication subscription).2.getChannelElement publication
      = some (w.heap.length + 2) ∧
    (ConnFactory.createConnection w publication subscription).2.getChannelElement subscription
      = some w.heap.length := by
  obtain ⟨cp, hcp⟩ : ∃ cp, w.connections[publication]? = some cp :=
    ⟨w.connections[publication], List.getElem?_eq_getElem hp⟩
  obtain ⟨cs, hcs⟩ : ∃ cs, w.connections[subscription]? = some cs :=
    ⟨w.connections[subscription], List.getElem?_eq_getElem hs⟩
  have hne' : subscription ≠ publication := fun h => hne h.symm
  rw [ConnFactory.createConnection_eq]
  refine ⟨rfl, by simp, ?_, ?_, ?_, ?_, ?_, ?_⟩
  · simp only [getElem?_append_length, List.getElem?_cons_zero]
  · simp only [getElem?_append_add, List.getElem?_cons_succ, List.getElem?_cons_zero]
  · simp only [getElem?_append_add, List.getElem?_cons_succ, List.getElem?_cons_zero]
  · simp [countDataElements, ElementKind.isChannelDataElement]
  · simp only [World.getChannelElement, getElem?_modifyAt, hne', if_false, if_true, hcp,
      Option.map_some']
  · simp only [World.getChannelElement, getElem?_modifyAt, hne, if_false, if_true, hcs,
      Option.map_some']

/-- The table after a connection was appended: the old entries and the new one. -/
theorem World.newConnection_channels {M : Type} (w : World M) (topic : String)
    (callback : Option CallbackPtr) :
    (w.newConnection topic callback).2.getChannelElement w.connections.length = none ∧
    (∀ c, c < w.connections.length →
      (w.newConnection topic callback).2.getChannelElement c = w.getChannelElement c) ∧
    (w.newConnection topic callback).2.connections.length = w.connections.length + 1 ∧
    (w.newConnection topic callback).2.heap = w.heap := by
  refine ⟨?_, ?_, ?_, rfl⟩
  · simp [World.getChannelElement_eq, World.newConnection]
  · intro c hc
    simp only [World.getChannelElement_eq, World.newConnection]
    rw [List.getElem?_append_left hc]
  · simp [World.newConnection]

/-- A successful `advertise` on a topic without subscription in the registry
builds no local connection: the new publication has no local channel, the
heap has no store node more than before, and the local channels of the other
connections are those of before. -/
theorem NodeHandle.advertise_unconnected {M : Type} [Inhabited M] (env : Env) (w : World M)
    (topic : String) (queue_size : Nat) (latch : Bool)
    (ha : env.rosAdvertise topic queue_size latch = true)
    (hns : TopicManager.findSubConnection w topic = none) :
    (NodeHandle.advertise env w topic queue_size latch).2.getChannelElement
      w.connections.length = none ∧
    countDataElements (NodeHandle.advertise env w topic queue_size latch).2.heap
      = countDataElements w.heap ∧
    (∀ c, c < w.connections.length →
      (NodeHandle.advertise env w topic queue_size latch).2.getChannelElement c
        = w.getChannelElement c) := by
  obtain ⟨_, f2, _, _⟩ := ConnFactory.createStream_frame env
    (TopicManager.addPubConnection (w.newConnection topic none).2 topic
      (w.newConnection topic none).1) (w.newConnection topic none).1 true
  have hfind : TopicManager.findSubConnection
      (ConnFactory.createStream env
        (TopicManager.addPubConnection (w.newConnection topic none).2 topic
          (w.newConnection topic none).1)
        (w.newConnection topic none).1 true).2 topic = none := by
    refine Eq.trans ?_ hns
    simp only [TopicManager.findSubConnection, f2]
    rfl
  obtain ⟨X, _, hcount⟩ := ConnFactory.createStream_heap env
    (TopicManager.addPubConnection (w.newConnection topic none).2 topic
      (w.newConnection topic none).1) (w.newConnection topic none).1 true
  obtain ⟨n1, n2, _, _⟩ := World.newConnection_channels w topic none
  simp only [NodeHandle.advertise, ha, if_true, hfind]
  refine ⟨?_, ?_, ?_⟩
  · rw [(ConnFactory.createStream_channels env _ _ true _).1]
    exact n1
  · rw [hcount]; rfl
  · intro c hc
    rw [(ConnFactory.createStream_channels env _ _ true _).1]
    exact n2 c hc

/-- A successful `subscribe` on a topic without publication in the registry
builds no local connection: the new subscription has no local channel, the
heap has no store node more than before, and the local channels of the other
connections are those of before. -/
theorem NodeHandle.subscribe_unconnected {M : Type} [Inhabited M] (env : Env) (w : World M)
    (topic : String) (queue_size : Nat) (fp : Option CallbackPtr)
    (hs : env.rosSubscribe topic queue_size = true)
    (hnp : TopicManager.findPubConnection w topic = none) :
    (NodeHandle.subscribe env w topic queue_size fp).2.getChannelElement
      w.connections.length = none ∧
    countDataElements (NodeHandle.subscribe env w topic queue_size fp).2.heap
      = countDataElements w.heap ∧
    (∀ c, c < w.connections.length →
      (NodeHandle.subscribe env w topic queue_size fp).2.getChannelElement c
        = w.getChannelElement c) := by
  obtain ⟨f1, _, _, _⟩ := ConnFactory.createStream_frame env
    (TopicManager.addSubConnection (w.newConnection topic fp).2 topic
      (w.newConnection topic fp).1) (w.newConnection topic fp).1 false
  have hfind : TopicManager.findPubConnection
      (ConnFactory.createStream env
        (TopicManager.addSubConnection (w.newConnection topic fp).2 topic
          (w.newConnection topic fp).1)
        (w.newConnection topic fp).1 false).2 topic = none := by
    refine Eq.trans ?_ hnp
    simp only [TopicManager.findPubConnection, f1]
    rfl
  obtain ⟨X, _, hcount⟩ := ConnFactory.createStream_heap env
    (TopicManager.addSubConnection (w.newConnection topic fp).2 topic
      (w.newConnection topic fp).1) (w.newConnection topic fp).1 false
  obtain ⟨n1, n2, _, _⟩ := World.newConnection_channels w topic fp
  simp only [NodeHandle.subscribe, hs, if_true, hfind]
  refine ⟨?_, ?_, ?_⟩
  · rw [(ConnFactory.createStream_channels env _ _ false _).1]
    exact n1
  · rw [hcount]; rfl
  · intro c hc
    rw [(ConnFactory.createStream_channels env _ _ false _).1]
    exact n2 c hc

/-- A successful `advertise` on a topic whose subscription `ls` is in the
registry and in the table builds the local connection: its three elements are
the last of the heap, which has one store node more than before, and the two
endpoints hold the ends of the chain. -/
theorem NodeHandle.advertise_connected {M : Type} [Inhabited M] (env : Env) (w : World M)
    (topic : String) (queue_size : Nat) (latch : Bool) (ls : ConnectionBasePtr)
    (ha : env.rosAdvertise topic queue_size latch = true)
    (hfs : TopicManager.findSubConnection w topic = some ls)
    (hls : ls < w.connections.length) :
    ∃ h : Nat,
      (NodeHandle.advertise env w topic queue_size latch).2.heap.length = h + 3 ∧
      (NodeHandle.advertise env w topic queue_size latch).2.heap[h]?
        = some ⟨ElementKind.ConnOutputEndpoint ls, none, some (h + 1), 0⟩ ∧
      (NodeHandle.advertise env w topic queue_size latch).2.heap[h + 1]?
        = some ⟨ElementKind.ChannelDataElement ⟨default, 0⟩ 0, some h, some (h + 2), 1⟩ ∧
      (NodeHandle.advertise env w topic queue_size latch).2.heap[h + 2]?
        = some ⟨ElementKind.ConnInputEndpoint w.connections.length, some (h + 1), none, 1⟩ ∧
      countDataElements (NodeHandle.advertise env w topic queue_size latch).2.heap
        = countDataElements w.heap + 1 ∧
      (NodeHandle.advertise env w topic queue_size latch).2.getChannelElement
        w.connections.length = some (h + 2) ∧
      (NodeHandle.advertise env w topic queue_size latch).2.getChannelElement ls = some h := by
  obtain ⟨_, f2, f3, _⟩ := ConnFactory.createStream_frame env
    (TopicManager.addPubConnection (w.newConnection topic none).2 topic
      (w.newConnection topic none).1) (w.newConnection topic none).1 true
  have hfind : TopicManager.findSubConnection
      (ConnFactory.createStream env
        (TopicManager.addPubConnection (w.newConnection topic none).2 topic
          (w.newConnection topic none).1)
        (w.newConnection topic none).1 true).2 topic = some ls := by
    refine Eq.trans ?_ hfs
    simp only [TopicManager.findSubConnection, f2]
    rfl
  obtain ⟨X, _, hcount⟩ := ConnFactory.createStream_heap env
    (TopicManager.addPubConnection (w.newConnection topic none).2 topic
      (w.newConnection topic none).1) (w.newConnection topic none).1 true
  obtain ⟨_, _, n3, _⟩ := World.newConnection_channels w topic none
  have hlen : (ConnFactory.createStream env
      (TopicManager.addPubConnection (w.newConnection topic none).2 topic
        (w.newConnection topic none).1)
      (w.newConnection topic none).1 true).2.connections.length = w.connections.length + 1 := by
    rw [f3]; exact n3
  obtain ⟨_, b2, b3, b4, b5, b6, b7, b8⟩ := ConnFactory.createConnection_built
    (ConnFactory.createStream env
      (TopicManager.addPubConnection (w.newConnection topic none).2 topic
        (w.newConnection topic none).1)
      (w.newConnection topic none).1 true).2 (w.newConnection topic none).1 ls
    (by rw [hlen]; exact Nat.lt_succ_self _) (by rw [hlen]; exact Nat.lt_succ_of_lt hls)
    (Nat.ne_of_gt hls)
  simp only [NodeHandle.advertise, ha, if_true, hfind]
  refine ⟨_, b2, b3, b4, b5, ?_, b7, b8⟩
  rw [b6, hcount]; rfl

/-- A successful `subscribe` on a topic whose publication `lp` is in the
registry and in the table builds the local connection: its three elements are
the last of the heap, which has one store node more than before, and the two
endpoints hold the ends of the chain. -/
theorem NodeHandle.subscribe_connected {M : Type} [Inhabited M] (env : Env) (w : World M)
    (topic : String) (queue_size : Nat) (fp : Option CallbackPtr) (lp : ConnectionBasePtr)
    (hs : env.rosSubscribe topic queue_size = true)
    (hfp : TopicManager.findPubConnection w topic = some lp)
    (hlp : lp < w.connections.length) :
    ∃ h : Nat,
      (NodeHandle.subscribe env w topic queue_size fp).2.heap.length = h + 3 ∧
      (NodeHandle.subscribe env w topic queue_size fp).2.heap[h]?
        = some ⟨ElementKind.ConnOutputEndpoint w.connections.length, none,
            some (h + 1), 0⟩ ∧
      (NodeHandle.subscribe env w topic queue_size fp).2.heap[h + 1]?
        = some ⟨ElementKind.ChannelDataElement ⟨default, 0⟩ 0, some h, some (h + 2), 1⟩ ∧
      (NodeHandle.subscribe env w topic queue_size fp).2.heap[h + 2]?
        = some ⟨ElementKind.ConnInputEndpoint lp, some (h + 1), none, 1⟩ ∧
      countDataElements (NodeHandle.subscribe env w topic queue_size fp).2.heap
        = countDataElements w.heap + 1 ∧
      (NodeHandle.subscribe env w topic queue_size fp).2.getChannelElement lp
        = some (h + 2) ∧
      (NodeHandle.subscribe env w topic queue_size fp).2.getChannelElement
        w.connections.length = some h := by
  obtain ⟨f1, _, f3, _⟩ := ConnFactory.createStream_frame env
    (TopicManager.addSubConnection (w.newConnection topic fp).2 topic
      (w.newConnection topic fp).1) (w.newConnection topic fp).1 false
  have hfind : TopicManager.findPubConnection
      (ConnFactory.createStream env
        (TopicManager.addSubConnection (w.newConnection topic fp).2 topic
          (w.newConnection topic fp).1)
        (w.newConnection topic fp).1 false).2 topic = some lp := by
    refine Eq.trans ?_ hfp
    simp only [TopicManager.findPubConnection, f1]
    rfl
  obtain ⟨X, _, hcount⟩ := ConnFactory.createStream_heap env
    (TopicManager.addSubConnection (w.newConnection topic fp).2 topic
      (w.newConnection topic fp).1) (w.newConnection topic fp).1 false
  obtain ⟨_, _, n3, _⟩ := World.newConnection_channels w topic fp
  have hlen : (ConnFactory.createStream env
      (TopicManager.addSubConnection (w.newConnection topic fp).2 topic
        (w.newConnection topic fp).1)
      (w.newConnection topic fp).1 false).2.connections.length = w.connections.length + 1 := by
    rw [f3]; exact n3
  obtain ⟨_, b2, b3, b4, b5, b6, b7, b8⟩ := ConnFactory.createConnection_built
    (ConnFactory.createStream env
      (TopicManager.addSubConnection (w.newConnection topic fp).2 topic
        (w.newConnection topic fp).1)
      (w.newConnection topic fp).1 false).2 lp (w.newConnection topic fp).1
    (by rw [hlen]; exact Nat.lt_succ_of_lt hlp) (by rw [hlen]; exact Nat.lt_succ_self _)
    (Nat.ne_of_lt hlp)
  simp only [NodeHandle.subscribe, hs, if_true, hfind]
  refine ⟨_, b2, b3, b4, b5, ?_, b7, b8⟩
  rw [b6, hcount]; rfl

/-- C8: from a registry with no endpoint for the topic, a successful
`subscribe` calls `createConnection` zero times and builds no local
connection (the subscription has no local channel, the heap no store node
more than before); the successful `advertise` that follows calls
`createConnection` exactly once, with the new publication and the
subscription registered before, and that call builds the one local
connection: the last three elements of the heap are the `ConnInputEndpoint`
of the publication, a `ChannelDataElement` seeded with the default sample and
the `ConnOutputEndpoint` of the subscription, linked in this order, the
publication holds the first and the subscription the last, and the heap has
exactly one store node more than at the start.  Likewise when `advertise`
comes first and `subscribe` second. -/
theorem NodeHandle_late_binding {M : Type} [Inhabited M] (env : Env) (w : World M)
    (topic : String) (queue_size : Nat) (latch : Bool) (fp : Option CallbackPtr) (k : Nat)
    (hnp : TopicManager.findPubConnection w topic = none)
    (hns : TopicManager.findSubConnection w topic = none)
    (ha : env.rosAdvertise topic queue_size latch = true)
    (hs : env.rosSubscribe topic queue_size = true) :
    ((NodeHandle.subscribe env w topic queue_size fp).1 = some ⟨w.connections.length⟩ ∧
     (NodeHandle.advertise env (NodeHandle.subscribe env w topic queue_size fp).2
        topic queue_size latch).1 = some ⟨w.connections.length + 1⟩ ∧
     (eventsSince (NodeHandle.subscribe env w topic queue_size fp).2 w.log.length).filter
        FactoryEvent.isCreateConnection = [] ∧
     (NodeHandle.subscribe env w topic queue_size fp).2.getChannelElement
        w.connections.length = none ∧
     countDataElements (NodeHandle.subscribe env w topic queue_size fp).2.heap
       = countDataElements w.heap ∧
     (eventsSince
        (NodeHandle.advertise env (NodeHandle.subscribe env w topic queue_size fp).2
          topic queue_size latch).2
        (NodeHandle.subscribe env w topic queue_size fp).2.log.length).filter
        FactoryEvent.isCreateConnection
       = [FactoryEvent.createConnection (w.connections.length + 1) w.connections.length] ∧
     (eventsSince
        (NodeHandle.advertise env (NodeHandle.subscribe env w topic queue_size fp).2
          topic queue_size latch).2 w.log.length).filter
        FactoryEvent.isCreateConnection
       = [FactoryEvent.createConnection (w.connections.length + 1) w.connections.length] ∧
     countDataElements
        (NodeHandle.advertise env (NodeHandle.subscribe env w topic queue_size fp).2
          topic queue_size latch).2.heap
       = countDataElements w.heap + 1 ∧
     ∃ h : Nat,
       (NodeHandle.advertise env (NodeHandle.subscribe env w topic queue_size fp).2
          topic queue_size latch).2.heap.length = h + 3 ∧
       (NodeHandle.advertise env (NodeHandle.subscribe env w topic queue_size fp).2
          topic queue_size latch).2.heap[h + 2]?
         = some ⟨ElementKind.ConnInputEndpoint (w.connections.length + 1), some (h + 1),
             none, 1⟩ ∧
       (NodeHandle.advertise env (NodeHandle.subscribe env w topic queue_size fp).2
          topic queue_size latch).2.heap[h + 1]?
         = some ⟨ElementKind.ChannelDataElement ⟨default, 0⟩ 0, some h, some (h + 2), 1⟩ ∧
       (NodeHandle.advertise env (NodeHandle.subscribe env w topic queue_size fp).2
          topic queue_size latch).2.heap[h]?
         = some ⟨ElementKind.ConnOutputEndpoint w.connections.length, none,
             some (h + 1), 0⟩ ∧
       chainFrom
          (NodeHandle.advertise env (NodeHandle.subscribe env w topic queue_size fp).2
            topic queue_size latch).2.heap (k + 3) (h + 2) = [h + 2, h + 1, h] ∧
       (NodeHandle.advertise env (NodeHandle.subscribe env w topic queue_size fp).2
          topic queue_size latch).2.getChannelElement (w.connections.length + 1)
         = some (h + 2) ∧
       (NodeHandle.advertise env (NodeHandle.subscribe env w topic queue_size fp).2
          topic queue_size latch).2.getChannelElement w.connections.length = some h) ∧
    ((NodeHandle.advertise env w topic queue_size latch).1 = some ⟨w.connections.length⟩ ∧
     (NodeHandle.subscribe env (NodeHandle.advertise env w topic queue_size latch).2
        topic queue_size fp).1 = some ⟨w.connections.length + 1⟩ ∧
     (eventsSince (NodeHandle.advertise env w topic queue_size latch).2 w.log.length).filter
        FactoryEvent.isCreateConnection = [] ∧
     (NodeHandle.advertise env w topic queue_size latch).2.getChannelElement
        w.connections.length = none ∧
     countDataElements (NodeHandle.advertise env w topic queue_size latch).2.heap
       = countDataElements w.heap ∧
     (eventsSince
        (NodeHandle.subscribe env (NodeHandle.advertise env w topic queue_size latch).2
          topic queue_size fp).2
        (NodeHandle.advertise env w topic queue_size latch).2.log.length).filter
        FactoryEvent.isCreateConnection
       = [FactoryEvent.createConnection w.connections.length (w.connections.length + 1)] ∧
     (eventsSince
        (NodeHandle.subscribe env (NodeHandle.advertise env w topic queue_size latch).2
          topic queue_size fp).2 w.log.length).filter
        FactoryEvent.isCreateConnection
       = [FactoryEvent.createConnection w.connections.length (w.connections.length + 1)] ∧
     countDataElements
        (NodeHandle.subscribe env (NodeHandle.advertise env w topic queue_size latch).2
          topic queue_size fp).2.heap
       = countDataElements w.heap + 1 ∧
     ∃ h : Nat,
       (NodeHandle.subscribe env (NodeHandle.advertise env w topic queue_size latch).2
          topic queue_size fp).2.heap.length = h + 3 ∧
       (NodeHandle.subscribe env (NodeHandle.advertise env w topic queue_size latch).2
          topic queue_size fp).2.heap[h + 2]?
         = some ⟨ElementKind.ConnInputEndpoint w.connections.length, some (h + 1),
             none, 1⟩ ∧
       (NodeHandle.subscribe env (NodeHandle.advertise env w topic queue_size latch).2
          topic queue_size fp).2.heap[h + 1]?
         = some ⟨ElementKind.ChannelDataElement ⟨default, 0⟩ 0, some h, some (h + 2), 1⟩ ∧
       (NodeHandle.subscribe env (NodeHandle.advertise env w topic queue_size latch).2
          topic queue_size fp).2.heap[h]?
         = some ⟨ElementKind.ConnOutputEndpoint (w.connections.length + 1), none,
             some (h + 1), 0⟩ ∧
       chainFrom
          (NodeHandle.subscribe env (NodeHandle.advertise env w topic queue_size latch).2
            topic queue_size fp).2.heap (k + 3) (h + 2) = [h + 2, h + 1, h] ∧
       (NodeHandle.subscribe env (NodeHandle.advertise env w topic queue_size latch).2
          topic queue_size fp).2.getChannelElement w.connections.length
         = some (h + 2) ∧
       (NodeHandle.subscribe env (NodeHandle.advertise env w topic queue_size latch).2
          topic queue_size fp).2.getChannelElement (w.connections.length + 1) = some h) := by
  obtain ⟨a1, a2, a3, a4, La, a5, a6⟩ := NodeHandle.advertise_ok env w topic queue_size latch ha
  obtain ⟨s1, s2, s3, s4, Ls, s5, s6⟩ := NodeHandle.subscribe_ok env w topic queue_size fp hs
  obtain ⟨sa1, _, _, _, Lsa, sa5, sa6⟩ := NodeHandle.advertise_ok env
    (NodeHandle.subscribe env w topic queue_size fp).2 topic queue_size latch ha
  obtain ⟨as1, _, _, _, Las, as5, as6⟩ := NodeHandle.subscribe_ok env
    (NodeHandle.advertise env w topic queue_size latch).2 topic queue_size fp hs
  have hfs : TopicManager.findSubConnection (NodeHandle.subscribe env w topic queue_size fp).2
      topic = some w.connections.length := by
    simp only [TopicManager.findSubConnection, s3]
    exact find_append_new _ _ _ hns
  have hfp : TopicManager.findPubConnection
      (NodeHandle.advertise env w topic queue_size latch).2 topic
      = some w.connections.length := by
    simp only [TopicManager.findPubConnection, a2]
    exact find_append_new _ _ _ hnp
  obtain ⟨su1, su2, _⟩ := NodeHandle.subscribe_unconnected env w topic queue_size fp hs hnp
  obtain ⟨au1, au2, _⟩ := NodeHandle.advertise_unconnected env w topic queue_size latch ha hns
  obtain ⟨h, c1, c2, c3, c4, c5, c6, c7⟩ := NodeHandle.advertise_connected env
    (NodeHandle.subscribe env w topic queue_size fp).2 topic queue_size latch
    w.connections.length ha hfs (by rw [s4]; exact Nat.lt_succ_self _)
  obtain ⟨h', d1, d2, d3, d4, d5, d6, d7⟩ := NodeHandle.subscribe_connected env
    (NodeHandle.advertise env w topic queue_size latch).2 topic queue_size fp
    w.connections.length hs hfp (by rw [a4]; exact Nat.lt_succ_self _)
  rw [hns] at a6
  rw [hnp] at s6
  rw [hfs, s4] at sa6
  rw [hfp, a4] at as6
  rw [s4] at sa1 c4 c6
  rw [a4] at as1 d2 d7
  rw [su2] at c5
  rw [au2] at d5
  refine ⟨⟨s1, sa1, ?_, su1, su2, ?_, ?_, c5, h, c1, c4, c3, c2, ?_, c6, c7⟩,
    ⟨a1, as1, ?_, au1, au2, ?_, ?_, d5, h', d1, d4, d3, d2, ?_, d6, d7⟩⟩
  · rw [eventsSince, s5, List.drop_left]; exact s6
  · rw [eventsSince, sa5, List.drop_left]; exact sa6
  · rw [eventsSince, sa5, s5, List.append_assoc, List.drop_left, List.filter_append, s6, sa6]
    rfl
  · exact chainFrom_three _ _ _ _ k _ _ _ c4 rfl c3 rfl c2 rfl
  · rw [eventsSince, a5, List.drop_left]; exact a6
  · rw [eventsSince, as5, List.drop_left]; exact as6
  · rw [eventsSince, as5, a5, List.append_assoc, List.drop_left, List.filter_append, a6, as6]
    rfl
  · exact chainFrom_three _ _ _ _ k _ _ _ d4 rfl d3 rfl d2 rfl

/-- Witness for C8: an empty process, the topic "chatter", every queue opening
with capacity 4, the callback `7`: the calls of `createConnection` logged by
the two calls together and the number of store nodes built, in either order. -/
theorem NodeHandle_late_binding_witness :
    ((eventsSince
        (NodeHandle.advertise
          ⟨fun _ _ => some ⟨4, [], []⟩, fun _ _ => true, fun _ _ _ => true, fun _ _ => true⟩
          (NodeHandle.subscribe
            ⟨fun _ _ => some ⟨4, [], []⟩, fun _ _ => true, fun _ _ _ => true, fun _ _ => true⟩
            (⟨[], [], [], [], []⟩ : World Nat) "chatter" 10 (some 7)).2
          "chatter" 10 false).2 0).filter
        FactoryEvent.isCreateConnection
       = [FactoryEvent.createConnection 1 0] ∧
     countDataElements
        (NodeHandle.advertise
          ⟨fun _ _ => some ⟨4, [], []⟩, fun _ _ => true, fun _ _ _ => true, fun _ _ => true⟩
          (NodeHandle.subscribe
            ⟨fun _ _ => some ⟨4, [], []⟩, fun _ _ => true, fun _ _ _ => true, fun _ _ => true⟩
            (⟨[], [], [], [], []⟩ : World Nat) "chatter" 10 (some 7)).2
          "chatter" 10 false).2.heap = 1) ∧
    ((eventsSince
        (NodeHandle.subscribe
          ⟨fun _ _ => some ⟨4, [], []⟩, fun _ _ => true, fun _ _ _ => true, fun _ _ => true⟩
          (NodeHandle.advertise
            ⟨fun _ _ => some ⟨4, [], []⟩, fun _ _ => true, fun _ _ _ => true, fun _ _ => true⟩
            (⟨[], [], [], [], []⟩ : World Nat) "chatter" 10 false).2
          "chatter" 10 (some 7)).2 0).filter
        FactoryEvent.isCreateConnection
       = [FactoryEvent.createConnection 0 1] ∧
     countDataElements
        (NodeHandle.subscribe
          ⟨fun _ _ => some ⟨4, [], []⟩, fun _ _ => true, fun _ _ _ => true, fun _ _ => true⟩
          (NodeHandle.advertise
            ⟨fun _ _ => some ⟨4, [], []⟩, fun _ _ => true, fun _ _ _ => true, fun _ _ => true⟩
            (⟨[], [], [], [], []⟩ : World Nat) "chatter" 10 false).2
          "chatter" 10 (some 7)).2.heap = 1) :=
  have t := NodeHandle_late_binding
    ⟨fun _ _ => some ⟨4, [], []⟩, fun _ _ => true, fun _ _ _ => true, fun _ _ => true⟩
    (⟨[], [], [], [], []⟩ : World Nat) "chatter" 10 false (some 7) 0 rfl rfl rfl rfl
  ⟨⟨t.1.2.2.2.2.2.2.1, t.1.2.2.2.2.2.2.2.1⟩, ⟨t.2.2.2.2.2.2.2.1, t.2.2.2.2.2.2.2.2.1⟩⟩

/-! ## Theorems: local round trip -/

/-- A `call()` whose read returns `NewData`, on a subscription with a callback. -/
theorem Subscription.call_newData {M σ : Type}
    (read : ChanPtr → σ → M → Bool → ReadResult M σ)
    (fp : CallbackPtr) (inp : ChanPtr) (sample : M) (result : FlowStatus) (st st' : σ) (s : M)
    (h : read inp st sample false = ReadResult.returned FlowStatus.NewData s st') :
    Subscription.call read (some fp) (some inp) sample result st
      = ⟨CallOutcome.returned true, [CallEvent.read inp false, CallEvent.callback fp s],
          st'⟩ := by
  simp [Subscription.call, h]

/-- C2: in a process where the publication and the subscription are two
connections, the publication has no queue chain and the subscription has its
callback `fp`, once `createConnection` has built the local pipeline (it
reports success) and the sample `x` has been published, one `call()` on the
subscription reads its terminal element, invokes the callback exactly once,
with `x`, and returns true, whatever the local `sample` of `call()` held. -/
theorem local_roundtrip {M : Type} [Inhabited M] (c : Codec M) (w : World M)
    (publication subscription : ConnectionBasePtr) (x sample : M) (result : FlowStatus)
    (fp : CallbackPtr)
    (hp : publication < w.connections.length) (hs : subscription < w.connections.length)
    (hne : publication ≠ subscription)
    (hmq : w.getMQChannelElement publication = none)
    (hcb : w.getCallback subscription = some fp) :
    (ConnFactory.createConnection w publication subscription).1 = true ∧
    (Publication.publish c (ConnFactory.createConnection w publication subscription).2
        publication x).getChannelElement subscription = some w.heap.length ∧
    (Publication.publish c (ConnFactory.createConnection w publication subscription).2
        publication x).getCallback subscription = some fp ∧
    (Subscription.call (ChannelElement.read c)
        ((Publication.publish c (ConnFactory.createConnection w publication subscription).2
          publication x).getCallback subscription)
        ((Publication.publish c (ConnFactory.createConnection w publication subscription).2
          publication x).getChannelElement subscription) sample result
        (Publication.publish c (ConnFactory.createConnection w publication subscription).2
          publication x)).outcome = CallOutcome.returned true ∧
    (Subscription.call (ChannelElement.read c)
        ((Publication.publish c (ConnFactory.createConnection w publication subscription).2
          publication x).getCallback subscription)
        ((Publication.publish c (ConnFactory.createConnection w publication subscription).2
          publication x).getChannelElement subscription) sample result
        (Publication.publish c (ConnFactory.createConnection w publication subscription).2
          publication x)).events
      = [CallEvent.read w.heap.length false, CallEvent.callback fp x] := by
  obtain ⟨cp, hcp⟩ : ∃ cp, w.connections[publication]? = some cp :=
    ⟨w.connections[publication], List.getElem?_eq_getElem hp⟩
  obtain ⟨cs, hcs⟩ : ∃ cs, w.connections[subscription]? = some cs :=
    ⟨w.connections[subscription], List.getElem?_eq_getElem hs⟩
  have hmq' : cp.mq_channel = none := by
    simpa [World.getMQChannelElement, hcp] using hmq
  have hne' : subscription ≠ publication := fun h => hne h.symm
  rw [ConnFactory.createConnection_eq]
  have hpub : Publication.publish c
      { heap := w.heap ++
            [⟨ElementKind.ConnOutputEndpoint subscription, none, some (w.heap.length + 1), 0⟩,
             ⟨ElementKind.ChannelDataElement ⟨default, 0⟩ 0, some w.heap.length,
               some (w.heap.length + 2), 1⟩,
             ⟨ElementKind.ConnInputEndpoint publication, some (w.heap.length + 1), none, 1⟩],
          connections :=
            modifyAt (fun cb => { cb with channel := some w.heap.length })
              (modifyAt (fun cb => { cb with channel := some (w.heap.length + 2) })
                w.connections publication) subscription,
          advertised := w.advertised,
          subscribed := w.subscribed,
          log := w.log ++
            [FactoryEvent.createConnection publication subscription,
             FactoryEvent.setOutput (w.heap.length + 1) w.heap.length,
             FactoryEvent.setOutput (w.heap.length + 2) (w.heap.length + 1),
             FactoryEvent.createAndCheckConnection publication subscription
               (w.heap.length + 2)] } publication x
      = { heap := w.heap ++
            [⟨ElementKind.ConnOutputEndpoint subscription, none, some (w.heap.length + 1), 0⟩,
             ⟨ElementKind.ChannelDataElement ⟨x, 1⟩ 0, some w.heap.length,
               some (w.heap.length + 2), 1⟩,
             ⟨ElementKind.ConnInputEndpoint publication, some (w.heap.length + 1), none, 1⟩],
          connections :=
            modifyAt (fun cb => { cb with channel := some w.heap.length })
              (modifyAt (fun cb => { cb with channel := some (w.heap.length + 2) })
                w.connections publication) subscription,
          advertised := w.advertised,
          subscribed := w.subscribed,
          log := w.log ++
            [FactoryEvent.createConnection publication subscription,
             FactoryEvent.setOutput (w.heap.length + 1) w.heap.length,
             FactoryEvent.setOutput (w.heap.length + 2) (w.heap.length + 1),
             FactoryEvent.createAndCheckConnection publication subscription
               (w.heap.length + 2)] } := by
    simp only [Publication.publish, World.getChannelElement, World.getMQChannelElement,
      getElem?_modifyAt, hne', if_false, if_true, hcp, Option.map_some', hmq',
      ChannelElement.write, ChannelElement.writeAux,
      List.length_append, List.length_cons, List.length_nil, Nat.zero_add, Nat.reduceAdd,
      getElem?_append_add, getElem?_append_length,
      List.getElem?_cons_succ, List.getElem?_cons_zero,
      modifyAt_append_add, modifyAt_append_length, modifyAt]
  rw [hpub]
  have hget : World.getChannelElement
      ({ heap := w.heap ++
            [⟨ElementKind.ConnOutputEndpoint subscription, none, some (w.heap.length + 1), 0⟩,
             ⟨ElementKind.ChannelDataElement ⟨x, 1⟩ 0, some w.heap.length,
               some (w.heap.length + 2), 1⟩,
             ⟨ElementKind.ConnInputEndpoint publication, some (w.heap.length + 1), none, 1⟩],
          connections :=
            modifyAt (fun cb => { cb with channel := some w.heap.length })
              (modifyAt (fun cb => { cb with channel := some (w.heap.length + 2) })
                w.connections publication) subscription,
          advertised := w.advertised,
          subscribed := w.subscribed,
          log := w.log ++
            [FactoryEvent.createConnection publication subscription,
             FactoryEvent.setOutput (w.heap.length + 1) w.heap.length,
             FactoryEvent.setOutput (w.heap.length + 2) (w.heap.length + 1),
             FactoryEvent.createAndCheckConnection publication subscription
               (w.heap.length + 2)] } : World M) subscription = some w.heap.length := by
    simp only [World.getChannelElement, getElem?_modifyAt, hne, if_false, if_true, hcs,
      Option.map_some']
  have hcall : World.getCallback
      ({ heap := w.heap ++
            [⟨ElementKind.ConnOutputEndpoint subscription, none, some (w.heap.length + 1), 0⟩,
             ⟨ElementKind.ChannelDataElement ⟨x, 1⟩ 0, some w.heap.length,
               some (w.heap.length + 2), 1⟩,
             ⟨ElementKind.ConnInputEndpoint publication, some (w.heap.length + 1), none, 1⟩],
          connections :=
            modifyAt (fun cb => { cb with channel := some w.heap.length })
              (modifyAt (fun cb => { cb with channel := some (w.heap.length + 2) })
                w.connections publication) subscription,
          advertised := w.advertised,
          subscribed := w.subscribed,
          log := w.log ++
            [FactoryEvent.createConnection publication subscription,
             FactoryEvent.setOutput (w.heap.length + 1) w.heap.length,
             FactoryEvent.setOutput (w.heap.length + 2) (w.heap.length + 1),
             FactoryEvent.createAndCheckConnection publication subscription
               (w.heap.length + 2)] } : World M) subscription = some fp := by
    rw [World.getCallback_eq, modifyAt_channel_callback, modifyAt_channel_callback,
      ← World.getCallback_eq]
    exact hcb
  rw [hget, hcall]
  refine ⟨rfl, rfl, rfl, ?_⟩
  rw [Subscription.call_newData (ChannelElement.read c) fp w.heap.length sample result _
    _ x (by
      simp only [ChannelElement.read, ChannelElement.readAux,
        List.length_append, List.length_cons, List.length_nil, Nat.zero_add, Nat.reduceAdd,
        getElem?_append_add, getElem?_append_length,
        List.getElem?_cons_succ, List.getElem?_cons_zero,
        modifyAt_append_add, modifyAt_append_length, modifyAt]
      simp
      rfl)]
  exact ⟨rfl, rfl⟩

/-- Witness for C2: a process with a publication (connection 0) and a
subscription (connection 1, callback `7`) on "chatter", and the sample `42`. -/
theorem local_roundtrip_witness :
    (ConnFactory.createConnection
      (⟨[], [⟨"chatter", none, none, none⟩, ⟨"chatter", none, none, some 7⟩],
        [("chatter", 0)], [("chatter", 1)], []⟩ : World Nat) 0 1).1 = true ∧
    (Publication.publish natCodec (ConnFactory.createConnection
      (⟨[], [⟨"chatter", none, none, none⟩, ⟨"chatter", none, none, some 7⟩],
        [("chatter", 0)], [("chatter", 1)], []⟩ : World Nat) 0 1).2 0 42).getChannelElement 1
      = some 0 ∧
    (Publication.publish natCodec (ConnFactory.createConnection
      (⟨[], [⟨"chatter", none, none, none⟩, ⟨"chatter", none, none, some 7⟩],
        [("chatter", 0)], [("chatter", 1)], []⟩ : World Nat) 0 1).2 0 42).getCallback 1
      = some 7 ∧
    (Subscription.call (ChannelElement.read natCodec)
        ((Publication.publish natCodec (ConnFactory.createConnection
          (⟨[], [⟨"chatter", none, none, none⟩, ⟨"chatter", none, none, some 7⟩],
            [("chatter", 0)], [("chatter", 1)], []⟩ : World Nat) 0 1).2 0 42).getCallback 1)
        ((Publication.publish natCodec (ConnFactory.createConnection
          (⟨[], [⟨"chatter", none, none, none⟩, ⟨"chatter", none, none, some 7⟩],
            [("chatter", 0)], [("chatter", 1)], []⟩ : World Nat) 0 1).2 0
            42).getChannelElement 1)
        0 FlowStatus.NoData
        (Publication.publish natCodec (ConnFactory.createConnection
          (⟨[], [⟨"chatter", none, none, none⟩, ⟨"chatter", none, none, some 7⟩],
            [("chatter", 0)], [("chatter", 1)], []⟩ : World Nat) 0 1).2 0 42)).outcome
      = CallOutcome.returned true ∧
    (Subscription.call (ChannelElement.read natCodec)
        ((Publication.publish natCodec (ConnFactory.createConnection
          (⟨[], [⟨"chatter", none, none, none⟩, ⟨"chatter", none, none, some 7⟩],
            [("chatter", 0)], [("chatter", 1)], []⟩ : World Nat) 0 1).2 0 42).getCallback 1)
        ((Publication.publish natCodec (ConnFactory.createConnection
          (⟨[], [⟨"chatter", none, none, none⟩, ⟨"chatter", none, none, some 7⟩],
            [("chatter", 0)], [("chatter", 1)], []⟩ : World Nat) 0 1).2 0
            42).getChannelElement 1)
        0 FlowStatus.NoData
        (Publication.publish natCodec (ConnFactory.createConnection
          (⟨[], [⟨"chatter", none, none, none⟩, ⟨"chatter", none, none, some 7⟩],
            [("chatter", 0)], [("chatter", 1)], []⟩ : World Nat) 0 1).2 0 42)).events
      = [CallEvent.read 0 false, CallEvent.callback 7 42] :=
  local_roundtrip natCodec
    (⟨[], [⟨"chatter", none, none, none⟩, ⟨"chatter", none, none, some 7⟩],
      [("chatter", 0)], [("chatter", 1)], []⟩ : World Nat) 0 1 42 0 FlowStatus.NoData 7
    (by decide) (by decide) (by decide) rfl rfl

end micros_rtt
